import Mathlib

/-!
# Verification of the Notion MCP translation layer (`src/notion/new.py`)

A shallow embedding of the request/response normalization layer.  Python
values exchanged with the wrapped Notion client are modelled by `JValue`
(JSON-like values); the external collaborator (the `notion_client.Client`
methods) is modelled by an `Oracle`: a function from the concrete request
(endpoint plus keyword arguments, in construction order) to either a raised
exception (`Except.error msg`, flattened to its message string exactly as
`str(e)` does) or a returned value.  Each tool function is translated to a
Lean function of the oracle and its arguments; it returns the result
envelope together with the list of collaborator calls it issued, in order.
Per the spec (§6) collaborator responses to listing calls are mappings with
`results` lists; accessor helpers default accordingly.

Python truthiness (`if x:`) is modelled explicitly (`jTruthy`, and for
optional string parameters a `none`/empty-string test), and `is not None`
tests are modelled by matching on `Option`.
-/

/-- JSON-like values, modelling the Python values exchanged with the
wrapped client.  Objects are association lists in insertion order,
mirroring Python dict ordering. -/
inductive JValue where
  | null : JValue
  | bool : Bool → JValue
  | num : Int → JValue
  | str : String → JValue
  | arr : List JValue → JValue
  | obj : List (String × JValue) → JValue

/-- Python truthiness of a value (`bool(x)`). -/
def jTruthy : JValue → Bool
  | .null => false
  | .bool b => b
  | .num n => n != 0
  | .str s => !s.isEmpty
  | .arr xs => !xs.isEmpty
  | .obj fs => !fs.isEmpty

/-- `isinstance(v, str)`. -/
def isStr : JValue → Bool
  | .str _ => true
  | _ => false

/-- The underlying string of a string value (unused on non-strings). -/
def asStr : JValue → String
  | .str s => s
  | _ => ""

/-- `d.get(k)`: first binding of `k` in an object, `None`-style absence
otherwise. -/
def jGet (v : JValue) (k : String) : Option JValue :=
  match v with
  | .obj fs => fs.lookup k
  | _ => none

/-- `d.get(k, default)`. -/
def jGetD (v : JValue) (k : String) (dflt : JValue) : JValue :=
  (jGet v k).getD dflt

/-- `d.get(k, {})` viewed as an association list (collaborator responses
are mappings per spec §6). -/
def jGetObjD (v : JValue) (k : String) : List (String × JValue) :=
  match jGet v k with
  | some (.obj fs) => fs
  | _ => []

/-- `d.get("results", [])` of a listing response (a list per spec §6). -/
def getResults (v : JValue) : List JValue :=
  match jGet v "results" with
  | some (.arr xs) => xs
  | _ => []

/-- `d.get("next_cursor")` followed by the loop's truthiness test
(`if not start_cursor: break` / `if start_cursor:`): the cursor to pass to
the next page call, or `none` when absent or falsy. -/
def getCursor (v : JValue) : Option JValue :=
  match jGet v "next_cursor" with
  | some c => if jTruthy c then some c else none
  | none => none

-- ---------------- Identifier validator ----------------

/-- A character of the class `[0-9a-fA-F-]`. -/
def isHexDash (c : Char) : Bool :=
  c.isDigit || ('a' ≤ c && c ≤ 'f') || ('A' ≤ c && c ≤ 'F') || c == '-'

/-- `[0-9a-fA-F-]{32,36}` consuming the whole list. -/
def hexDashCore (l : List Char) : Bool :=
  32 ≤ l.length && l.length ≤ 36 && l.all isHexDash

/-- The characters form a `[0-9a-fA-F-]{32,36}` core followed by one
newline (where Python's `$` can match). -/
def tailNewlineCheck (l : List Char) : Bool :=
  match l.getLast? with
  | some c => c == '\n' && hexDashCore l.dropLast
  | none => false

/-- `bool(re.match(r"^[0-9a-fA-F-]{32,36}$", s))`.  Python's `$` (without
`re.MULTILINE`) matches at the end of the string or just before a newline
that is the last character, so the regex accepts a core consuming the
whole string, or a core followed by a single trailing `'\n'`. -/
def uuidReMatch (s : String) : Bool :=
  hexDashCore s.data || tailNewlineCheck s.data

/-- `validate_notion_id` (src/notion/new.py:27): rejects falsy or
non-string input, otherwise applies the `_UUID_RE` pattern. -/
def validate_notion_id (v : JValue) : Bool :=
  if !jTruthy v || !isStr v then false
  else uuidReMatch (asStr v)

-- ---------------- Collaborator model / result normalizer ----------------

/-- The wrapped client endpoints reached by this layer. -/
inductive Endpoint where
  | usersMe | usersList | usersRetrieve
  | pagesCreate | pagesUpdate | pagesRetrieve | pagesPropertiesRetrieve
  | databasesCreate | databasesQuery | databasesRetrieve | databasesUpdate
  | blocksChildrenAppend | blocksChildrenList | blocksUpdate | blocksRetrieve
  | commentsCreate | commentsList
  | search
deriving DecidableEq

/-- One outbound collaborator call: endpoint and keyword arguments in
construction order. -/
structure Request where
  endpoint : Endpoint
  kwargs : List (String × JValue)

/-- The external collaborator: maps a request to a raised exception
(flattened to `str(e)`) or a returned value. -/
def Oracle : Type := Request → Except String JValue

/-- The uniform result envelope `{successful, data, error}`. -/
structure Envelope where
  successful : Bool
  data : JValue
  error : Option String

/-- A locally-detected input-validation failure envelope
`{"successful": False, "data": {}, "error": msg}`. -/
def invalidEnv (msg : String) : Envelope :=
  ⟨false, .obj [], some msg⟩

/-- `safe_execute` (src/notion/new.py:38): invoke the unit of work once;
on success wrap the raw return value with a null error, on any raised
fault flatten it to its message string with empty-mapping data. -/
def safe_execute (r : Except String JValue) : Envelope :=
  match r with
  | .ok d => ⟨true, d, none⟩
  | .error e => ⟨false, .obj [], some e⟩

-- ---------------- Pagination aggregator ----------------

/-- The shared `while True` control flow of `_collect_all_pages_query` and
`_collect_all_blocks` (identical per spec §4.2, differing only in the
request builder `mk`): issue `mk cursor` through `safe_execute`; on failure
return that envelope with the log; otherwise append the page's `results`
and continue with the page's truthy `next_cursor`, stopping (with the
accumulated results) when it is absent/falsy.  `fuel` bounds the number of
iterations of the unbounded Python loop; `none` means fuel ran out. -/
def collectLoop (o : Oracle) (mk : Option JValue → Request) :
    List JValue → Option JValue → List Request → Nat →
    Option (Envelope × List Request)
  | _, _, _, 0 => none
  | acc, cursor, log, fuel + 1 =>
    let req := mk cursor
    let res := safe_execute (o req)
    if res.successful = false then some (res, log ++ [req])
    else
      let acc2 := acc ++ getResults res.data
      match getCursor res.data with
      | none => some (⟨true, .obj [("results", .arr acc2)], none⟩, log ++ [req])
      | some c => collectLoop o mk acc2 (some c) (log ++ [req]) fuel

/-- The kwargs built by one iteration of `_collect_all_pages_query`
(src/notion/new.py:60-62). -/
def queryMk (database_id : String) (page_size : Int) (cursor : Option JValue) : Request :=
  ⟨.databasesQuery,
    [("database_id", .str database_id), ("page_size", .num page_size)] ++
      (match cursor with
       | some c => [("start_cursor", c)]
       | none => [])⟩

/-- The kwargs built by one iteration of `_collect_all_blocks`
(src/notion/new.py:79-81). -/
def blocksMk (block_id : String) (page_size : Int) (cursor : Option JValue) : Request :=
  ⟨.blocksChildrenList,
    [("block_id", .str block_id), ("page_size", .num page_size)] ++
      (match cursor with
       | some c => [("start_cursor", c)]
       | none => [])⟩

/-- `_collect_all_pages_query` (src/notion/new.py:52). -/
def _collect_all_pages_query (o : Oracle) (database_id : String)
    (page_size : Int := 100) (fuel : Nat := 1000) : Option (Envelope × List Request) :=
  collectLoop o (queryMk database_id page_size) [] none [] fuel

/-- `_collect_all_blocks` (src/notion/new.py:74). -/
def _collect_all_blocks (o : Oracle) (block_id : String)
    (page_size : Int := 100) (fuel : Nat := 1000) : Option (Envelope × List Request) :=
  collectLoop o (blocksMk block_id page_size) [] none [] fuel

/-- A listing page response `{"results": items, "next_cursor": cursor-or-null}`. -/
def pageJson (items : List JValue) (next : Option String) : JValue :=
  .obj [("results", .arr items),
        ("next_cursor", match next with | some c => .str c | none => .null)]

-- ---------------- Shared payload builders ----------------

/-- Truthiness of an optional string parameter (`if x:`): present and
non-empty. -/
def strOptTruthy : Option String → Bool
  | some s => !s.isEmpty
  | none => false

/-- `{"external": {"url": url}}`. -/
def coverJson (url : String) : JValue :=
  .obj [("external", .obj [("url", .str url)])]

/-- `{"emoji": e}`. -/
def iconJson (e : String) : JValue :=
  .obj [("emoji", .str e)]

/-- `{"text": {"content": t}}` — the untyped rich-text run used by the
page-title payloads. -/
def textRun (t : String) : JValue :=
  .obj [("text", .obj [("content", .str t)])]

/-- `{"type": "text", "text": {"content": v}}` — the typed rich-text run. -/
def typedTextRun (v : JValue) : JValue :=
  .obj [("type", .str "text"), ("text", .obj [("content", v)])]

/-- `markdown_to_rich_text` (src/notion/new.py:456): a single typed text
run around the given content value. -/
def markdown_to_rich_text (content : JValue) : List JValue :=
  [typedTextRun content]

/-- `{"title": [{"text": {"content": t}}]}` — the title property payload. -/
def titleJson (t : String) : JValue :=
  .obj [("title", .arr [textRun t])]

/-- `isinstance(v, dict) and "title" in v`: the value marks a title-typed
property. -/
def hasTitleMark (v : JValue) : Bool :=
  match v with
  | .obj fs => fs.any (fun p => p.1 == "title")
  | _ => false

/-- `next((k for k, v in props.items() if isinstance(v, dict) and "title" in v), "Name")`. -/
def firstTitleKey (fs : List (String × JValue)) : String :=
  match fs.find? (fun p => hasTitleMark p.2) with
  | some p => p.1
  | none => "Name"

/-- Python dict item assignment `d[k] = v`: replace the binding in place
if the key is present, else append. -/
def upsert : List (String × JValue) → String → JValue → List (String × JValue)
  | [], k, v => [(k, v)]
  | (k', v') :: rest, k, v =>
    if k' = k then (k, v) :: rest else (k', v') :: upsert rest k v

/-- Python `d.update(new)`: assign each binding of `new` in order. -/
def dictUpdate (fs new : List (String × JValue)) : List (String × JValue) :=
  new.foldl (fun acc p => upsert acc p.1 p.2) fs

/-- The `notion.pages.retrieve(page_id=page_id)` request. -/
def retrieveReq (page_id : String) : Request :=
  ⟨.pagesRetrieve, [("page_id", .str page_id)]⟩

-- ---------------- User tools ----------------

/-- `NOTION_GET_ABOUT_ME` (src/notion/new.py:94). -/
def NOTION_GET_ABOUT_ME (o : Oracle) : Envelope × List Request :=
  let req : Request := ⟨.usersMe, []⟩
  (safe_execute (o req), [req])

/-- `NOTION_LIST_USERS` (src/notion/new.py:106): paginated passthrough
with the `{id, name}` projection (absent names default to "Unknown") on
success. -/
def NOTION_LIST_USERS (o : Oracle) (page_size : Int := 30)
    (start_cursor : Option String := none) : Envelope × List Request :=
  let kwargs := [("page_size", JValue.num page_size)] ++
    (match start_cursor with
     | some c => if c.isEmpty then [] else [("start_cursor", JValue.str c)]
     | none => [])
  let req : Request := ⟨.usersList, kwargs⟩
  let res := safe_execute (o req)
  if res.successful then
    ({ res with data := .arr ((getResults res.data).map (fun u =>
        .obj [("id", jGetD u "id" .null), ("name", jGetD u "name" (.str "Unknown"))])) }, [req])
  else (res, [req])

/-- `NOTION_GET_ABOUT_USER` (src/notion/new.py:130). -/
def NOTION_GET_ABOUT_USER (o : Oracle) (user_id : String) : Envelope × List Request :=
  if !validate_notion_id (.str user_id) then (invalidEnv "Invalid user ID format", [])
  else
    let req : Request := ⟨.usersRetrieve, [("user_id", .str user_id)]⟩
    (safe_execute (o req), [req])

-- ---------------- Page tools ----------------

/-- `NOTION_CREATE_NOTION_PAGE` (src/notion/new.py:146). -/
def NOTION_CREATE_NOTION_PAGE (o : Oracle) (parent_id title : String)
    (cover : Option String := none) (icon : Option String := none) : Envelope × List Request :=
  if !validate_notion_id (.str parent_id) then (invalidEnv "Invalid parent ID format", [])
  else
    let kwargs := [("parent", JValue.obj [("page_id", .str parent_id)]),
                   ("properties", JValue.obj [("title", titleJson title)])] ++
      (match cover with
       | some c => if c.isEmpty then [] else [("cover", coverJson c)]
       | none => []) ++
      (match icon with
       | some e => if e.isEmpty then [] else [("icon", iconJson e)]
       | none => [])
    let req : Request := ⟨.pagesCreate, kwargs⟩
    (safe_execute (o req), [req])

/-- The `if archived is not None: kwargs["archived"] = archived` step of
`NOTION_UPDATE_PAGE` (src/notion/new.py:194-195). -/
def optArchived : Option Bool → List (String × JValue)
  | some b => [("archived", .bool b)]
  | none => []

/-- The `if cover_url: kwargs["cover"] = ...` step (src/notion/new.py:196-197). -/
def optCover : Option String → List (String × JValue)
  | some c => if c.isEmpty then [] else [("cover", coverJson c)]
  | none => []

/-- The `if icon_emoji: kwargs["icon"] = ...` step (src/notion/new.py:198-199). -/
def optIcon : Option String → List (String × JValue)
  | some e => if e.isEmpty then [] else [("icon", iconJson e)]
  | none => []

/-- `NOTION_UPDATE_PAGE` (src/notion/new.py:174): conditionally merges
archive flag, cover, icon and title; a truthy title first fetches the
page's current properties through `safe_execute` to discover the
title-bearing property key, falling back to `"Name"` when the retrieval
fails or no property is title-typed; caller-supplied `properties` are
merged (`dict.update`) last. -/
def NOTION_UPDATE_PAGE (o : Oracle) (page_id : String) (title : Option String := none)
    (archived : Option Bool := none) (cover_url : Option String := none)
    (icon_emoji : Option String := none)
    (properties : Option (List (String × JValue)) := none) : Envelope × List Request :=
  if !validate_notion_id (.str page_id) then (invalidEnv "Invalid page_id format", [])
  else
    let kwA := optArchived archived
    let kwB := kwA ++ optCover cover_url
    let kwC := kwB ++ optIcon icon_emoji
    let titleStep : List (String × JValue) × List Request :=
      match title with
      | some t =>
        if t.isEmpty then (kwC, [])
        else
          let meta := safe_execute (o (retrieveReq page_id))
          let key :=
            if meta.successful then firstTitleKey (jGetObjD meta.data "properties")
            else "Name"
          (kwC ++ [("properties", .obj [(key, titleJson t)])], [retrieveReq page_id])
      | none => (kwC, [])
    let kwD := titleStep.1
    let kwE :=
      match properties with
      | some ps =>
        if ps.isEmpty then kwD
        else
          match kwD.lookup "properties" with
          | some (.obj existing) => upsert kwD "properties" (.obj (dictUpdate existing ps))
          | _ => kwD ++ [("properties", .obj ps)]
      | none => kwD
    let req : Request := ⟨.pagesUpdate, ("page_id", .str page_id) :: kwE⟩
    (safe_execute (o req), titleStep.2 ++ [req])

/-- `NOTION_GET_PAGE_PROPERTY_ACTION` (src/notion/new.py:216). -/
def NOTION_GET_PAGE_PROPERTY_ACTION (o : Oracle) (page_id property_id : String)
    (page_size : Option Int := none) (start_cursor : Option String := none) :
    Envelope × List Request :=
  if !validate_notion_id (.str page_id) then (invalidEnv "Invalid page_id format", [])
  else
    let kwargs := [("page_id", JValue.str page_id), ("property_id", JValue.str property_id)] ++
      (match page_size with
       | some n => if n = 0 then [] else [("page_size", JValue.num n)]
       | none => []) ++
      (match start_cursor with
       | some c => if c.isEmpty then [] else [("start_cursor", JValue.str c)]
       | none => [])
    let req : Request := ⟨.pagesPropertiesRetrieve, kwargs⟩
    (safe_execute (o req), [req])

/-- `NOTION_ARCHIVE_NOTION_PAGE` (src/notion/new.py:241). -/
def NOTION_ARCHIVE_NOTION_PAGE (o : Oracle) (page_id : String) (archive : Bool := true) :
    Envelope × List Request :=
  if !validate_notion_id (.str page_id) then (invalidEnv "Invalid page_id format", [])
  else
    let req : Request := ⟨.pagesUpdate, [("page_id", .str page_id), ("archived", .bool archive)]⟩
    (safe_execute (o req), [req])

/-- One rich-text item's `t.get("plain_text", "")`, or `none` when the
Python expression would raise (caught by the surrounding `except`): a
non-mapping item, or a non-string `plain_text` (which would fault the
string join). -/
def plainTextOf (t : JValue) : Option String :=
  match t with
  | .obj fs =>
    (match fs.lookup "plain_text" with
     | none => some ""
     | some (.str s) => some s
     | some _ => none)
  | _ => none

/-- The guarded title extraction of `list_pages` (src/notion/new.py:278-285):
"Untitled" unless a title-typed property with a joinable, non-empty text is
found; any fault inside the `try` leaves "Untitled". -/
def extractTitle (pg : JValue) : String :=
  match jGet pg "properties" with
  | some (.obj props) =>
    (match props.find? (fun p => hasTitleMark p.2) with
     | some tp =>
       (match jGetD tp.2 "title" (.arr []) with
        | .arr ts =>
          (match ts.mapM plainTextOf with
           | some ss =>
             let s := String.join ss
             if s.isEmpty then "Untitled" else s
           | none => "Untitled")
        | _ => "Untitled")
     | none => "Untitled")
  | some _ => "Untitled"
  | none => "Untitled"

/-- The `{id, title, url}` projection of one search result in `list_pages`. -/
def pageProj (pg : JValue) : JValue :=
  .obj [("id", jGetD pg "id" .null), ("title", .str (extractTitle pg)),
        ("url", jGetD pg "url" .null)]

/-- `list_pages` (src/notion/new.py:259): search restricted to pages,
optionally filtered by a truthy keyword; on success the envelope carries
the projected list and — unlike every other tool — an empty-string error
field. -/
def list_pages (o : Oracle) (keyword : Option String := none) : Envelope × List Request :=
  let search_kwargs := [("filter", JValue.obj [("property", .str "object"), ("value", .str "page")])] ++
    (match keyword with
     | some k => if k.isEmpty then [] else [("query", JValue.str k)]
     | none => [])
  let req : Request := ⟨.search, search_kwargs⟩
  let res := safe_execute (o req)
  if !res.successful then (res, [req])
  else (⟨true, .arr ((getResults res.data).map pageProj), some ""⟩, [req])

-- ---------------- Database tools ----------------

/-- `NOTION_CREATE_DATABASE` (src/notion/new.py:292): rejects an invalid
parent and a schema with no title-typed property before any call. -/
def NOTION_CREATE_DATABASE (o : Oracle) (parent_id title : String)
    (properties : List (String × JValue)) : Envelope × List Request :=
  if !validate_notion_id (.str parent_id) then (invalidEnv "Invalid parent_id format", [])
  else if !(properties.any (fun p => hasTitleMark p.2)) then
    (invalidEnv "Database must have at least one title property", [])
  else
    let payload := [("parent", JValue.obj [("type", .str "page_id"), ("page_id", .str parent_id)]),
                    ("title", JValue.arr [typedTextRun (.str title)]),
                    ("properties", JValue.obj properties)]
    let req : Request := ⟨.databasesCreate, payload⟩
    (safe_execute (o req), [req])

/-- `NOTION_INSERT_ROW_DATABASE` (src/notion/new.py:316). -/
def NOTION_INSERT_ROW_DATABASE (o : Oracle) (database_id : String)
    (properties : List (String × JValue)) (icon : Option String := none)
    (cover : Option String := none) (children : Option (List JValue) := none) :
    Envelope × List Request :=
  if !validate_notion_id (.str database_id) then (invalidEnv "Invalid database_id format", [])
  else
    let payload := [("parent", JValue.obj [("database_id", .str database_id)]),
                    ("properties", JValue.obj properties)] ++
      (match icon with
       | some e => if e.isEmpty then [] else [("icon", iconJson e)]
       | none => []) ++
      (match cover with
       | some c => if c.isEmpty then [] else [("cover", coverJson c)]
       | none => []) ++
      (match children with
       | some cs => if cs.isEmpty then [] else [("children", JValue.arr cs)]
       | none => [])
    let req : Request := ⟨.pagesCreate, payload⟩
    (safe_execute (o req), [req])

/-- One element of the `sorts` comprehension in `NOTION_QUERY_DATABASE`
(src/notion/new.py:362): `{"property": s["property"], "direction":
s.get("direction", "ascending")}`; a missing `"property"` key raises
`KeyError` outside `safe_execute`. -/
def sortItem (s : List (String × JValue)) : Except String JValue :=
  match s.lookup "property" with
  | some p => .ok (.obj [("property", p), ("direction", (s.lookup "direction").getD (.str "ascending"))])
  | none => .error "KeyError: \x27property\x27"

/-- `NOTION_QUERY_DATABASE` (src/notion/new.py:344).  The result is
`Except`: the sorts comprehension runs outside `safe_execute`, so a sort
object without a `"property"` key raises out of the operation. -/
def NOTION_QUERY_DATABASE (o : Oracle) (database_id : String) (page_size : Int := 10)
    (sorts : Option (List (List (String × JValue))) := none)
    (start_cursor : Option String := none) : Except String (Envelope × List Request) :=
  if !validate_notion_id (.str database_id) then .ok (invalidEnv "Invalid database_id format", [])
  else
    let finish := fun (sortsPart : List (String × JValue)) =>
      let payload := [("page_size", JValue.num page_size)] ++ sortsPart ++
        (match start_cursor with
         | some c => if c.isEmpty then [] else [("start_cursor", JValue.str c)]
         | none => [])
      let req : Request := ⟨.databasesQuery, ("database_id", .str database_id) :: payload⟩
      Except.ok (safe_execute (o req), [req])
    match sorts with
    | some ss =>
      if ss.isEmpty then finish []
      else
        match ss.mapM sortItem with
        | .error e => .error e
        | .ok mapped => finish [("sorts", JValue.arr mapped)]
    | none => finish []

/-- `NOTION_FETCH_DATABASE` (src/notion/new.py:369). -/
def NOTION_FETCH_DATABASE (o : Oracle) (database_id : String) : Envelope × List Request :=
  if !validate_notion_id (.str database_id) then (invalidEnv "Invalid database_id format", [])
  else
    let req : Request := ⟨.databasesRetrieve, [("database_id", .str database_id)]⟩
    (safe_execute (o req), [req])

/-- `NOTION_FETCH_ROW` (src/notion/new.py:386). -/
def NOTION_FETCH_ROW (o : Oracle) (page_id : String) : Envelope × List Request :=
  if !validate_notion_id (.str page_id) then (invalidEnv "Invalid page_id format", [])
  else
    let req : Request := ⟨.pagesRetrieve, [("page_id", .str page_id)]⟩
    (safe_execute (o req), [req])

/-- `NOTION_UPDATE_ROW_DATABASE` (src/notion/new.py:401).  The `archived`
parameter defaults to `False` (not to `None`), and the payload includes it
whenever it is not `None` — so a call that omits `archived` still sends
`archived = false`. -/
def NOTION_UPDATE_ROW_DATABASE (o : Oracle) (page_id : String)
    (properties : Option (List (String × JValue)) := none) (icon : Option String := none)
    (cover : Option String := none) (archived : Option Bool := some false) :
    Envelope × List Request :=
  if !validate_notion_id (.str page_id) then (invalidEnv "Invalid page_id format", [])
  else
    let payload :=
      (match properties with
       | some ps => if ps.isEmpty then [] else [("properties", JValue.obj ps)]
       | none => []) ++
      (match icon with
       | some e => if e.isEmpty then [] else [("icon", iconJson e)]
       | none => []) ++
      (match cover with
       | some c => if c.isEmpty then [] else [("cover", coverJson c)]
       | none => []) ++
      (match archived with
       | some b => [("archived", JValue.bool b)]
       | none => [])
    let req : Request := ⟨.pagesUpdate, ("page_id", .str page_id) :: payload⟩
    (safe_execute (o req), [req])

/-- `NOTION_UPDATE_SCHEMA_DATABASE` (src/notion/new.py:431). -/
def NOTION_UPDATE_SCHEMA_DATABASE (o : Oracle) (database_id : String)
    (title : Option String := none) (description : Option String := none)
    (properties : Option (List (String × JValue)) := none) : Envelope × List Request :=
  if !validate_notion_id (.str database_id) then (invalidEnv "Invalid database_id format", [])
  else
    let payload :=
      (match title with
       | some t => if t.isEmpty then [] else [("title", JValue.arr [typedTextRun (.str t)])]
       | none => []) ++
      (match description with
       | some d => if d.isEmpty then [] else [("description", JValue.arr [typedTextRun (.str d)])]
       | none => []) ++
      (match properties with
       | some ps => if ps.isEmpty then [] else [("properties", JValue.obj ps)]
       | none => [])
    let req : Request := ⟨.databasesUpdate, ("database_id", .str database_id) :: payload⟩
    (safe_execute (o req), [req])

-- ---------------- Block tools ----------------

mutual
/-- Python `repr` of a value, as interpolated into f-string error
messages. -/
def pyRepr : JValue → String
  | .null => "None"
  | .bool true => "True"
  | .bool false => "False"
  | .num n => toString n
  | .str s => "\x27" ++ s ++ "\x27"
  | .arr xs => "[" ++ pyReprSeq xs ++ "]"
  | .obj fs => "\x7b" ++ pyReprFields fs ++ "\x7d"

/-- Comma-separated `repr`s of list elements. -/
def pyReprSeq : List JValue → String
  | [] => ""
  | [x] => pyRepr x
  | x :: y :: rest => pyRepr x ++ ", " ++ pyReprSeq (y :: rest)

/-- Comma-separated `repr`s of dict items. -/
def pyReprFields : List (String × JValue) → String
  | [] => ""
  | [p] => "\x27" ++ p.1 ++ "\x27: " ++ pyRepr p.2
  | p :: q :: rest => "\x27" ++ p.1 ++ "\x27: " ++ pyRepr p.2 ++ ", " ++ pyReprFields (q :: rest)
end

/-- Python `str` of a value, as an f-string converts it: a top-level
string is rendered unquoted; every other value renders as its `repr`
(container elements always use `repr`). -/
def pyStr (v : JValue) : String :=
  match v with
  | .str s => s
  | _ => pyRepr v

/-- The per-block normalization of `NOTION_ADD_MULTIPLE_PAGE_CONTENT`
(src/notion/new.py:483-489): pass through a mapping whose `"object"` is
`"block"`, synthesize a paragraph from a mapping with a `"content"` key,
and fail on anything else. -/
def parseBlock (b : JValue) : Except String JValue :=
  match b with
  | .obj fs =>
    if (match fs.lookup "object" with | some (.str s) => s == "block" | _ => false) then .ok b
    else
      match fs.lookup "content" with
      | some c => .ok (.obj [("object", .str "block"), ("type", .str "paragraph"),
                             ("paragraph", .obj [("rich_text", .arr (markdown_to_rich_text c))])])
      | none => .error ("Invalid block format: " ++ pyStr b)
  | _ => .error ("Invalid block format: " ++ pyStr b)

/-- `NOTION_ADD_MULTIPLE_PAGE_CONTENT` (src/notion/new.py:462): rejects an
invalid parent, then a non-list or empty `content_blocks`, then a list of
more than 100 items, then normalizes each block — all before any
collaborator call. -/
def NOTION_ADD_MULTIPLE_PAGE_CONTENT (o : Oracle) (parent_block_id : String)
    (content_blocks : JValue) (after : Option String := none) : Envelope × List Request :=
  if !validate_notion_id (.str parent_block_id) then (invalidEnv "Invalid parent_block_id", [])
  else
    match content_blocks with
    | .arr bs =>
      if bs.isEmpty then (invalidEnv "content_blocks must be a non-empty list", [])
      else if 100 < bs.length then (invalidEnv "Maximum 100 blocks per request", [])
      else
        match bs.mapM parseBlock with
        | .error msg => (invalidEnv msg, [])
        | .ok parsed =>
          let payload := [("children", JValue.arr parsed)] ++
            (match after with | some a => [("after", JValue.str a)] | none => [])
          let req : Request := ⟨.blocksChildrenAppend, ("block_id", .str parent_block_id) :: payload⟩
          (safe_execute (o req), [req])
    | _ => (invalidEnv "content_blocks must be a non-empty list", [])

/-- `NOTION_ADD_PAGE_CONTENT` (src/notion/new.py:498). -/
def NOTION_ADD_PAGE_CONTENT (o : Oracle) (parent_block_id : String)
    (content_block : JValue) (after : Option String := none) : Envelope × List Request :=
  if !validate_notion_id (.str parent_block_id) then (invalidEnv "Invalid parent_block_id", [])
  else
    match content_block with
    | .obj _ =>
      let payload := [("children", JValue.arr [content_block])] ++
        (match after with | some a => [("after", JValue.str a)] | none => [])
      let req : Request := ⟨.blocksChildrenAppend, ("block_id", .str parent_block_id) :: payload⟩
      (safe_execute (o req), [req])
    | _ => (invalidEnv "content_block must be an object", [])

/-- `NOTION_APPEND_BLOCK_CHILDREN` (src/notion/new.py:520): same bounds as
the multi-block append, passing the children through verbatim. -/
def NOTION_APPEND_BLOCK_CHILDREN (o : Oracle) (block_id : String)
    (children : JValue) (after : Option String := none) : Envelope × List Request :=
  if !validate_notion_id (.str block_id) then (invalidEnv "Invalid block_id", [])
  else
    match children with
    | .arr cs =>
      if cs.isEmpty then (invalidEnv "children must be a non-empty list", [])
      else if 100 < cs.length then (invalidEnv "Maximum 100 blocks per request", [])
      else
        let payload := [("children", JValue.arr cs)] ++
          (match after with | some a => [("after", JValue.str a)] | none => [])
        let req : Request := ⟨.blocksChildrenAppend, ("block_id", .str block_id) :: payload⟩
        (safe_execute (o req), [req])
    | _ => (invalidEnv "children must be a non-empty list", [])

/-- The rich-text-bearing block types recognized by `NOTION_UPDATE_BLOCK`
other than `to_do` (src/notion/new.py:561). -/
def richTextBlockTypes : List String :=
  ["paragraph", "heading_1", "heading_2", "heading_3",
   "bulleted_list_item", "numbered_list_item", "quote"]

/-- `NOTION_UPDATE_BLOCK` (src/notion/new.py:544). -/
def NOTION_UPDATE_BLOCK (o : Oracle) (block_id block_type content : String)
    (additional_properties : Option (List (String × JValue)) := none) :
    Envelope × List Request :=
  if !validate_notion_id (.str block_id) then (invalidEnv "Invalid block_id", [])
  else
    let base := [("rich_text", JValue.arr (markdown_to_rich_text (.str content)))]
    let withAddl :=
      match additional_properties with
      | some ps => if ps.isEmpty then base else dictUpdate base ps
      | none => base
    if richTextBlockTypes.contains block_type then
      let req : Request := ⟨.blocksUpdate, [("block_id", .str block_id), (block_type, .obj withAddl)]⟩
      (safe_execute (o req), [req])
    else if block_type == "to_do" then
      let req : Request := ⟨.blocksUpdate, [("block_id", .str block_id), ("to_do", .obj withAddl)]⟩
      (safe_execute (o req), [req])
    else
      match additional_properties with
      | some ps =>
        if ps.isEmpty then
          (invalidEnv ("Unsupported block_type \x27" ++ block_type ++ "\x27 without additional_properties"), [])
        else
          let req : Request := ⟨.blocksUpdate, [("block_id", .str block_id), (block_type, .obj ps)]⟩
          (safe_execute (o req), [req])
      | none =>
        (invalidEnv ("Unsupported block_type \x27" ++ block_type ++ "\x27 without additional_properties"), [])

/-- `NOTION_DELETE_BLOCK` (src/notion/new.py:577). -/
def NOTION_DELETE_BLOCK (o : Oracle) (block_id : String) : Envelope × List Request :=
  if !validate_notion_id (.str block_id) then (invalidEnv "Invalid block_id", [])
  else
    let req : Request := ⟨.blocksUpdate, [("block_id", .str block_id), ("archived", .bool true)]⟩
    (safe_execute (o req), [req])

/-- `NOTION_FETCH_BLOCK_CONTENTS` (src/notion/new.py:592). -/
def NOTION_FETCH_BLOCK_CONTENTS (o : Oracle) (block_id : String)
    (page_size : Option Int := none) (start_cursor : Option String := none) :
    Envelope × List Request :=
  if !validate_notion_id (.str block_id) then (invalidEnv "Invalid block_id", [])
  else
    let kwargs := [("block_id", JValue.str block_id)] ++
      (match page_size with
       | some n => if n = 0 then [] else [("page_size", JValue.num n)]
       | none => []) ++
      (match start_cursor with
       | some c => if c.isEmpty then [] else [("start_cursor", JValue.str c)]
       | none => [])
    let req : Request := ⟨.blocksChildrenList, kwargs⟩
    (safe_execute (o req), [req])

/-- `NOTION_FETCH_BLOCK_METADATA` (src/notion/new.py:616). -/
def NOTION_FETCH_BLOCK_METADATA (o : Oracle) (block_id : String) : Envelope × List Request :=
  if !validate_notion_id (.str block_id) then (invalidEnv "Invalid block_id", [])
  else
    let req : Request := ⟨.blocksRetrieve, [("block_id", .str block_id)]⟩
    (safe_execute (o req), [req])

-- ---------------- Comment tools ----------------

/-- `NOTION_CREATE_COMMENT` (src/notion/new.py:634): requires at least one
of a truthy `discussion_id` or `parent_page_id` — but never applies the
identifier validator to either; a truthy `discussion_id` wins. -/
def NOTION_CREATE_COMMENT (o : Oracle) (comment : List (String × JValue))
    (discussion_id : Option String := none) (parent_page_id : Option String := none) :
    Envelope × List Request :=
  if !strOptTruthy discussion_id && !strOptTruthy parent_page_id then
    (invalidEnv "Either discussion_id or parent_page_id must be provided.", [])
  else
    let contentVal := (comment.lookup "content").getD (.str "")
    let payload := [("rich_text", JValue.arr [typedTextRun contentVal])] ++
      (if strOptTruthy discussion_id then
        [("discussion_id", JValue.str (discussion_id.getD ""))]
       else
        [("parent", JValue.obj [("type", .str "page_id"),
                                ("page_id", JValue.str (parent_page_id.getD ""))])])
    let req : Request := ⟨.commentsCreate, payload⟩
    (safe_execute (o req), [req])

/-- `c.get("id") == comment_id` for one listed comment. -/
def matchesCommentId (comment_id : String) (c : JValue) : Bool :=
  match jGet c "id" with
  | some (.str s) => s == comment_id
  | _ => false

/-- `NOTION_GET_COMMENT_BY_ID` (src/notion/new.py:659): requires only
truthy (non-empty) identifiers — no validator pattern check — then lists
up to one page of 100 comments and linearly scans for the identifier. -/
def NOTION_GET_COMMENT_BY_ID (o : Oracle) (parent_block_id comment_id : String) :
    Envelope × List Request :=
  if parent_block_id.isEmpty || comment_id.isEmpty then
    (invalidEnv "parent_block_id and comment_id are required.", [])
  else
    let req : Request := ⟨.commentsList, [("block_id", .str parent_block_id), ("page_size", .num 100)]⟩
    let res := safe_execute (o req)
    if !res.successful then (res, [req])
    else
      match (getResults res.data).find? (matchesCommentId comment_id) with
      | some c => (⟨true, c, none⟩, [req])
      | none => (invalidEnv ("Comment with ID " ++ comment_id ++ " not found."), [req])

/-- `NOTION_FETCH_COMMENTS` (src/notion/new.py:682): presence check on
`block_id` only; `page_size` is forwarded even when `None`, and
`start_cursor` is forwarded whenever it `is not None` (even empty). -/
def NOTION_FETCH_COMMENTS (o : Oracle) (block_id : String)
    (page_size : Option Int := some 100) (start_cursor : Option String := none) :
    Envelope × List Request :=
  if block_id.isEmpty then (invalidEnv "block_id is required.", [])
  else
    let kwargs := [("block_id", JValue.str block_id),
                   ("page_size", match page_size with | some n => JValue.num n | none => JValue.null)] ++
      (match start_cursor with | some c => [("start_cursor", JValue.str c)] | none => [])
    let req : Request := ⟨.commentsList, kwargs⟩
    (safe_execute (o req), [req])

-- ---------------- Search tools ----------------

/-- `NOTION_SEARCH_NOTION_PAGE` (src/notion/new.py:705): the query is
forwarded unconditionally (even when `None`), the cursor only when
truthy. -/
def NOTION_SEARCH_NOTION_PAGE (o : Oracle) (query : Option String := some "")
    (page_size : Int := 10) (start_cursor : Option String := none) :
    Envelope × List Request :=
  let kwargs := [("page_size", JValue.num page_size),
                 ("query", match query with | some q => JValue.str q | none => JValue.null)] ++
    (match start_cursor with
     | some c => if c.isEmpty then [] else [("start_cursor", JValue.str c)]
     | none => [])
  let req : Request := ⟨.search, kwargs⟩
  (safe_execute (o req), [req])

/-- `NOTION_FETCH_DATA` (src/notion/new.py:725): `get_all` drops the
filter; otherwise the filter is `"database"` when `get_databases` and
`"page"` in every other case.  The `get_pages` flag is accepted but never
read. -/
def NOTION_FETCH_DATA (o : Oracle) (get_all : Bool := false) (get_databases : Bool := false)
    (get_pages : Bool := false) (page_size : Int := 100) (query : Option String := none) :
    Envelope × List Request :=
  let kwargs := [("page_size", JValue.num page_size)] ++
    (match query with
     | some q => if q.isEmpty then [] else [("query", JValue.str q)]
     | none => [])
  if get_all then
    let req : Request := ⟨.search, kwargs⟩
    (safe_execute (o req), [req])
  else
    let filterVal := if get_databases then "database" else "page"
    let req : Request := ⟨.search,
      kwargs ++ [("filter", JValue.obj [("property", .str "object"), ("value", .str filterVal)])]⟩
    (safe_execute (o req), [req])

-- ---------------- Shared concrete objects for witnesses ----------------

/-- A collaborator that accepts every call and returns an empty mapping. -/
def okOracle : Oracle := fun _ => .ok (.obj [])

/-- A syntactically valid identifier: 32 hexadecimal digits. -/
def zeroId : String := "00000000000000000000000000000000"

/-- 32 hexadecimal digits followed by a newline: not made of 32–36
hex/dash characters, yet accepted by `_UUID_RE` because Python's `$`
matches before a trailing newline. -/
def newlineId : String := "00000000000000000000000000000000\n"

-- ---------------- C6: the identifier validator ----------------

/-- The trailing-newline branch of the regex match, characterized. -/
theorem tailNewline_iff (l : List Char) :
    tailNewlineCheck l = true ↔
      ∃ l' : List Char, l = l' ++ ['\n'] ∧ hexDashCore l' = true := by
  induction l using List.reverseRecOn with
  | nil => simp [tailNewlineCheck]
  | append_singleton xs x _ =>
    rw [tailNewlineCheck, List.getLast?_concat, List.dropLast_concat]
    constructor
    · intro h
      rw [Bool.and_eq_true, beq_iff_eq] at h
      exact ⟨xs, by rw [h.1], h.2⟩
    · rintro ⟨l', hl, hc⟩
      have hx : x = '\n' := by
        have h2 := congrArg List.getLast? hl
        rw [List.getLast?_concat, List.getLast?_concat] at h2
        exact Option.some.inj h2
      have hxs : xs = l' := by
        have h2 := congrArg List.dropLast hl
        rw [List.dropLast_concat, List.dropLast_concat] at h2
        exact h2
      subst hx
      rw [hxs]
      simp [hc]

/-- `hexDashCore` unfolded to its propositional reading. -/
theorem hexDashCore_iff (l : List Char) :
    hexDashCore l = true ↔
      32 ≤ l.length ∧ l.length ≤ 36 ∧ l.all isHexDash = true := by
  simp [hexDashCore, Bool.and_eq_true, decide_eq_true_eq, and_assoc]

/-- **C6 counterexample.**  The claim says the validator accepts exactly
the strings of 32–36 hex/dash characters; but `_UUID_RE` (via Python's
`$`) also accepts 32 hex digits followed by a newline, which contains a
non-hex/dash character. -/
theorem C6_counterexample :
    validate_notion_id (.str newlineId) = true ∧ newlineId.data.all isHexDash = false := by
  constructor
  · decide
  · decide

/-- **C6 (amended).**  The identifier validator is a pure function that
rejects null, non-string and empty input, and accepts exactly when the
string consists of 32–36 characters drawn from hexadecimal digits and
dash, *optionally followed by one trailing newline* (an artifact of
Python's `$` matching before a final newline). -/
theorem C6_amended_validator (v : JValue) :
    validate_notion_id v = true ↔
      ∃ s : String, v = .str s ∧
        ((32 ≤ s.data.length ∧ s.data.length ≤ 36 ∧ s.data.all isHexDash = true) ∨
         ∃ l : List Char, s.data = l ++ ['\n'] ∧
           32 ≤ l.length ∧ l.length ≤ 36 ∧ l.all isHexDash = true) := by
  cases v with
  | str s =>
    by_cases he : s.isEmpty
    · have hs : s = "" := by rwa [String.isEmpty_iff] at he
      subst hs
      constructor
      · intro h
        exact absurd h (by decide)
      · rintro ⟨s', hs', hcond⟩
        injection hs' with h
        subst h
        rcases hcond with ⟨h32, _⟩ | ⟨l, hl, _⟩
        · exact absurd h32 (by decide)
        · exact absurd hl (by simp)
    · have hv : validate_notion_id (.str s) = uuidReMatch s := by
        simp [validate_notion_id, jTruthy, isStr, asStr, he]
      rw [hv]
      constructor
      · intro h
        refine ⟨s, rfl, ?_⟩
        rw [uuidReMatch, Bool.or_eq_true] at h
        rcases h with h | h
        · exact Or.inl ((hexDashCore_iff _).mp h)
        · obtain ⟨l, hl, hc⟩ := (tailNewline_iff _).mp h
          exact Or.inr ⟨l, hl, (hexDashCore_iff _).mp hc⟩
      · rintro ⟨s', hs', hcond⟩
        injection hs' with h
        subst h
        rw [uuidReMatch, Bool.or_eq_true]
        rcases hcond with h | ⟨l, hl, hc⟩
        · exact Or.inl ((hexDashCore_iff _).mpr h)
        · exact Or.inr ((tailNewline_iff _).mpr ⟨l, hl, (hexDashCore_iff _).mpr hc⟩)
  | null => simp [validate_notion_id, jTruthy, isStr]
  | bool b => simp [validate_notion_id, jTruthy, isStr]
  | num n => simp [validate_notion_id, jTruthy, isStr]
  | arr xs => simp [validate_notion_id, jTruthy, isStr]
  | obj fs => simp [validate_notion_id, jTruthy, isStr]

-- ---------------- C2: exception propagation ----------------

/-- **C2 (code bug).**  The claim says no operation lets a raised
exception escape, yet `NOTION_QUERY_DATABASE` evaluates `s["property"]`
for each supplied sort object *outside* `safe_execute`
(src/notion/new.py:362): with a valid database id and `sorts = [{}]` the
operation raises `KeyError: 'property'` instead of returning a failure
envelope, and issues no collaborator call on the way. -/
theorem C2_query_database_raises :
    NOTION_QUERY_DATABASE okOracle zeroId 10 (some [[]]) none =
      .error "KeyError: \x27property\x27" := rfl

-- ---------------- C1: identifier validation before dispatch ----------------

/-- **C1 counterexample.**  `NOTION_CREATE_COMMENT` takes a discussion
identifier but never applies the validator to it: with the malformed
discussion id `"bad"` (rejected by the validator) and an accepting
collaborator, the operation still succeeds and issues one collaborator
call — the claim requires `successful = false` and zero calls. -/
theorem C1_counterexample :
    validate_notion_id (.str "bad") = false ∧
    (NOTION_CREATE_COMMENT okOracle [("content", .str "hi")] (some "bad") none).1.successful
      = true ∧
    (NOTION_CREATE_COMMENT okOracle [("content", .str "hi")] (some "bad") none).2.length
      = 1 := by
  refine ⟨by decide, rfl, rfl⟩

-- ---------------- C3 / C4: pagination aggregation ----------------

/-- The collaborator serves the given successful page chain along the
cursor path starting at `cursor`: each element of `chain` is a page's
item list paired with its truthy (non-empty) continuation cursor, and
`last` is the final page, whose cursor is null. -/
def RespondsChain (o : Oracle) (mk : Option JValue → Request) :
    Option JValue → List (List JValue × String) → List JValue → Prop
  | cursor, [], last => o (mk cursor) = .ok (pageJson last none)
  | cursor, (items, c) :: rest, last =>
    c.isEmpty = false ∧ o (mk cursor) = .ok (pageJson items (some c)) ∧
      RespondsChain o mk (some (.str c)) rest last

/-- Reading a synthesized page: its item list. -/
theorem getResults_pageJson (items : List JValue) (next : Option String) :
    getResults (pageJson items next) = items := by
  simp [getResults, pageJson, jGet, List.lookup]

/-- Reading a synthesized page: a truthy continuation cursor. -/
theorem getCursor_pageJson_some (items : List JValue) (c : String) (hc : c.isEmpty = false) :
    getCursor (pageJson items (some c)) = some (.str c) := by
  simp [getCursor, pageJson, jGet, List.lookup, jTruthy, hc]

/-- Reading a synthesized page: the final page's null cursor. -/
theorem getCursor_pageJson_none (items : List JValue) :
    getCursor (pageJson items none) = none := by
  simp [getCursor, pageJson, jGet, List.lookup, jTruthy]

/-- Invariant of the shared pagination loop on a successful chain:
starting from any accumulator, log, cursor and sufficient fuel, the loop
issues exactly one request per page (threading each page's cursor into
the next request) and returns the concatenation of all item lists. -/
theorem collectLoop_chain_ok (o : Oracle) (mk : Option JValue → Request)
    (chain : List (List JValue × String)) (last : List JValue) :
    ∀ (cursor : Option JValue) (acc : List JValue) (log : List Request) (fuel : Nat),
      RespondsChain o mk cursor chain last → chain.length + 1 ≤ fuel →
      collectLoop o mk acc cursor log fuel =
        some (⟨true, .obj [("results", .arr (acc ++ ((chain.map Prod.fst).flatten ++ last)))], none⟩,
              log ++ (mk cursor :: chain.map (fun p => mk (some (.str p.2))))) := by
  induction chain with
  | nil =>
    intro cursor acc log fuel h hf
    match fuel, hf with
    | fuel + 1, _ =>
      simp only [RespondsChain] at h
      simp [collectLoop, h, safe_execute, getResults_pageJson, getCursor_pageJson_none]
  | cons p rest ih =>
    intro cursor acc log fuel h hf
    obtain ⟨hc, ho, hrest⟩ := h
    match fuel, hf with
    | fuel + 1, hf =>
      have hf2 : rest.length + 1 ≤ fuel := by
        simp only [List.length_cons] at hf
        omega
      rw [collectLoop]
      simp only [ho, safe_execute, getResults_pageJson, getCursor_pageJson_some _ _ hc]
      rw [ih _ _ _ _ hrest hf2]
      simp [List.append_assoc]

/-- **C3 (confirmed).**  Pagination aggregation, for the database-row
query aggregator and the block-children aggregator: given successful
pages `P1 (cursor c1), ..., Pn-1 (cursor cn-1), Pn (cursor null)` with
item lists `L1..Ln` (modelled by `chain` plus the final page `last`), the
aggregator issues exactly `n = chain.length + 1` collaborator calls —
the first without a cursor and each later call carrying the previous
page's cursor — and returns
`{successful: true, data: {results: L1 ++ ... ++ Ln}, error: null}`. -/
theorem C3_pagination_aggregation (o : Oracle) (database_id block_id : String)
    (page_size : Int) (chain : List (List JValue × String)) (last : List JValue)
    (fuel : Nat)
    (hq : RespondsChain o (queryMk database_id page_size) none chain last)
    (hb : RespondsChain o (blocksMk block_id page_size) none chain last)
    (hfuel : chain.length + 1 ≤ fuel) :
    (_collect_all_pages_query o database_id page_size fuel =
      some (⟨true, .obj [("results", .arr ((chain.map Prod.fst).flatten ++ last))], none⟩,
            queryMk database_id page_size none ::
              chain.map (fun p => queryMk database_id page_size (some (.str p.2))))) ∧
    (_collect_all_blocks o block_id page_size fuel =
      some (⟨true, .obj [("results", .arr ((chain.map Prod.fst).flatten ++ last))], none⟩,
            blocksMk block_id page_size none ::
              chain.map (fun p => blocksMk block_id page_size (some (.str p.2))))) ∧
    (queryMk database_id page_size none ::
        chain.map (fun p => queryMk database_id page_size (some (.str p.2)))).length
      = chain.length + 1 := by
  refine ⟨?_, ?_, by simp⟩
  · have h := collectLoop_chain_ok o (queryMk database_id page_size) chain last
      none [] [] fuel hq hfuel
    simpa [_collect_all_pages_query] using h
  · have h := collectLoop_chain_ok o (blocksMk block_id page_size) chain last
      none [] [] fuel hb hfuel
    simpa [_collect_all_blocks] using h

/-- A concrete three-page collaborator for the pagination witness, keyed
by the request's cursor argument. -/
def pageOracle : Oracle := fun r =>
  match r.kwargs.lookup "start_cursor" with
  | none => .ok (pageJson [.str "a1"] (some "c1"))
  | some (.str "c1") => .ok (pageJson [.str "b1", .str "b2"] (some "c2"))
  | some (.str "c2") => .ok (pageJson [.str "d1"] none)
  | _ => .error "unexpected cursor"

/-- A valid database identifier for witnesses. -/
def wDbId : String := "11111111111111111111111111111111"

/-- A valid block identifier for witnesses. -/
def wBlockId : String := "22222222222222222222222222222222"

/-- Witness for C3: a concrete three-page run of both aggregators. -/
theorem C3_pagination_aggregation_witness :
    _collect_all_pages_query pageOracle wDbId 100 5 =
      some (⟨true, .obj [("results", .arr [.str "a1", .str "b1", .str "b2", .str "d1"])], none⟩,
        [queryMk wDbId 100 none, queryMk wDbId 100 (some (.str "c1")),
         queryMk wDbId 100 (some (.str "c2"))]) ∧
    _collect_all_blocks pageOracle wBlockId 100 5 =
      some (⟨true, .obj [("results", .arr [.str "a1", .str "b1", .str "b2", .str "d1"])], none⟩,
        [blocksMk wBlockId 100 none, blocksMk wBlockId 100 (some (.str "c1")),
         blocksMk wBlockId 100 (some (.str "c2"))]) := by
  have h := C3_pagination_aggregation pageOracle wDbId wBlockId 100
    [([.str "a1"], "c1"), ([.str "b1", .str "b2"], "c2")] [.str "d1"] 5
    ⟨rfl, rfl, rfl, rfl, rfl⟩ ⟨rfl, rfl, rfl, rfl, rfl⟩ (by norm_num)
  exact ⟨h.1, h.2.1⟩

/-- The collaborator serves successful pages along the chain and then
raises (with message `e`) on the following call. -/
def RespondsThenFail (o : Oracle) (mk : Option JValue → Request) :
    Option JValue → List (List JValue × String) → String → Prop
  | cursor, [], e => o (mk cursor) = .error e
  | cursor, (items, c) :: rest, e =>
    c.isEmpty = false ∧ o (mk cursor) = .ok (pageJson items (some c)) ∧
      RespondsThenFail o mk (some (.str c)) rest e

/-- Invariant of the shared pagination loop on a failing chain: the items
accumulated so far are discarded and the failing call's envelope is
returned with no further requests. -/
theorem collectLoop_chain_fail (o : Oracle) (mk : Option JValue → Request)
    (chain : List (List JValue × String)) (e : String) :
    ∀ (cursor : Option JValue) (acc : List JValue) (log : List Request) (fuel : Nat),
      RespondsThenFail o mk cursor chain e → chain.length + 1 ≤ fuel →
      collectLoop o mk acc cursor log fuel =
        some (⟨false, .obj [], some e⟩,
              log ++ (mk cursor :: chain.map (fun p => mk (some (.str p.2))))) := by
  induction chain with
  | nil =>
    intro cursor acc log fuel h hf
    match fuel, hf with
    | fuel + 1, _ =>
      simp only [RespondsThenFail] at h
      simp [collectLoop, h, safe_execute]
  | cons p rest ih =>
    intro cursor acc log fuel h hf
    obtain ⟨hc, ho, hrest⟩ := h
    match fuel, hf with
    | fuel + 1, hf =>
      have hf2 : rest.length + 1 ≤ fuel := by
        simp only [List.length_cons] at hf
        omega
      rw [collectLoop]
      simp only [ho, safe_execute, getResults_pageJson, getCursor_pageJson_some _ _ hc]
      rw [ih _ _ _ _ hrest hf2]
      simp [List.append_assoc]

/-- **C4 (confirmed).**  Pagination abort, for both aggregators: when the
call after `chain.length` successful pages fails (the collaborator raises
with message `e`), the aggregator returns exactly the failure envelope
`safe_execute` produced for that call — `{successful: false, data: {},
error: e}` — discarding every accumulated item, and its call log stops at
that failing call (`chain.length + 1` calls in total). -/
theorem C4_pagination_abort (o : Oracle) (database_id block_id : String)
    (page_size : Int) (chain : List (List JValue × String)) (e : String) (fuel : Nat)
    (hq : RespondsThenFail o (queryMk database_id page_size) none chain e)
    (hb : RespondsThenFail o (blocksMk block_id page_size) none chain e)
    (hfuel : chain.length + 1 ≤ fuel) :
    (_collect_all_pages_query o database_id page_size fuel =
      some (safe_execute (Except.error e),
            queryMk database_id page_size none ::
              chain.map (fun p => queryMk database_id page_size (some (.str p.2))))) ∧
    (_collect_all_blocks o block_id page_size fuel =
      some (safe_execute (Except.error e),
            blocksMk block_id page_size none ::
              chain.map (fun p => blocksMk block_id page_size (some (.str p.2))))) ∧
    (queryMk database_id page_size none ::
        chain.map (fun p => queryMk database_id page_size (some (.str p.2)))).length
      = chain.length + 1 := by
  refine ⟨?_, ?_, by simp⟩
  · have h := collectLoop_chain_fail o (queryMk database_id page_size) chain e
      none [] [] fuel hq hfuel
    simpa [_collect_all_pages_query, safe_execute] using h
  · have h := collectLoop_chain_fail o (blocksMk block_id page_size) chain e
      none [] [] fuel hb hfuel
    simpa [_collect_all_blocks, safe_execute] using h

/-- A collaborator whose second page call fails, for the abort witness. -/
def failOracle : Oracle := fun r =>
  match r.kwargs.lookup "start_cursor" with
  | none => .ok (pageJson [.str "a1"] (some "c1"))
  | some (.str "c1") => .error "boom"
  | _ => .error "unexpected cursor"

/-- Witness for C4: a concrete run in which page 2 fails — page 1's items
are discarded, the envelope is page 2's failure envelope, and only two
calls are issued. -/
theorem C4_pagination_abort_witness :
    _collect_all_pages_query failOracle wDbId 100 5 =
      some (⟨false, .obj [], some "boom"⟩,
        [queryMk wDbId 100 none, queryMk wDbId 100 (some (.str "c1"))]) ∧
    _collect_all_blocks failOracle wBlockId 100 5 =
      some (⟨false, .obj [], some "boom"⟩,
        [blocksMk wBlockId 100 none, blocksMk wBlockId 100 (some (.str "c1"))]) := by
  have h := C4_pagination_abort failOracle wDbId wBlockId 100
    [([.str "a1"], "c1")] "boom" 5 ⟨rfl, rfl, rfl⟩ ⟨rfl, rfl, rfl⟩ (by norm_num)
  exact ⟨h.1, h.2.1⟩

-- ---------------- C7: page-title update ----------------

/-- A keys-disjoint prefix is skipped by `lookup`. -/
theorem lookup_append_of_keys_ne (l1 l2 : List (String × JValue)) (k : String)
    (h : ∀ q ∈ l1, q.1 ≠ k) : (l1 ++ l2).lookup k = l2.lookup k := by
  induction l1 with
  | nil => rfl
  | cons q rest ih =>
    rcases q with ⟨k1, v1⟩
    have hk : (k == k1) = false :=
      beq_eq_false_iff_ne.mpr (fun hkq => (h (k1, v1) (List.mem_cons_self _ _)) hkq.symm)
    simp only [List.cons_append, List.lookup, hk]
    exact ih (fun q hq => h q (List.mem_cons_of_mem _ hq))

/-- A keys-disjoint prefix is preserved by `upsert`. -/
theorem upsert_append_of_keys_ne (l1 l2 : List (String × JValue)) (k : String) (v : JValue)
    (h : ∀ q ∈ l1, q.1 ≠ k) : upsert (l1 ++ l2) k v = l1 ++ upsert l2 k v := by
  induction l1 with
  | nil => rfl
  | cons q rest ih =>
    rcases q with ⟨k1, v1⟩
    have hk : k1 ≠ k := h (k1, v1) (List.mem_cons_self _ _)
    simp only [List.cons_append, upsert, if_neg hk, List.cons.injEq, true_and]
    exact ih (fun q hq => h q (List.mem_cons_of_mem _ hq))

/-- Assigning under a different key leaves a `lookup` unchanged. -/
theorem lookup_upsert_of_ne (l : List (String × JValue)) (k1 k : String) (v : JValue)
    (h : k1 ≠ k) : (upsert l k1 v).lookup k = l.lookup k := by
  have hk : (k == k1) = false := beq_eq_false_iff_ne.mpr (fun hkq => h hkq.symm)
  induction l with
  | nil => simp [upsert, List.lookup, hk]
  | cons q rest ih =>
    rcases q with ⟨k2, v2⟩
    by_cases h2 : k2 = k1
    · subst h2
      simp [upsert, List.lookup, hk]
    · simp only [upsert, if_neg h2, List.lookup]
      cases hkk : k == k2 <;> simp [hkk, ih]

/-- `dict.update` with keys avoiding `k` leaves `lookup k` unchanged. -/
theorem dictUpdate_lookup_of_keys_ne (base ps : List (String × JValue)) (k : String)
    (h : ∀ q ∈ ps, q.1 ≠ k) : (dictUpdate base ps).lookup k = base.lookup k := by
  induction ps generalizing base with
  | nil => rfl
  | cons q rest ih =>
    have hstep : dictUpdate base (q :: rest) = dictUpdate (upsert base q.1 q.2) rest := rfl
    rw [hstep, ih (upsert base q.1 q.2) (fun r hr => h r (List.mem_cons_of_mem _ hr)),
        lookup_upsert_of_ne _ _ _ _ (h q (List.mem_cons_self _ _))]

/-- The caller-supplied `properties` dict as `NOTION_UPDATE_PAGE` merges
it (`if properties:` truthiness): the dict when present and non-empty,
nothing otherwise. -/
def callerProps : Option (List (String × JValue)) → List (String × JValue)
  | some ps => if ps.isEmpty then [] else ps
  | none => []

/-- A collaborator whose page retrieval reports a title-typed property
under the key `"Task"`. -/
def titleOracle : Oracle := fun r =>
  match r.endpoint with
  | .pagesRetrieve => .ok (.obj [("properties", .obj
      [("Notes", .obj [("rich_text", .obj [])]),
       ("Task", .obj [("title", .arr [])])])])
  | _ => .ok (.obj [])

/-- **C7 counterexample.**  The claim says every `NOTION_UPDATE_PAGE`
call with a title supplied sets the new title under the discovered key;
but caller-supplied `properties` are merged with `dict.update` *after*
the title step (src/notion/new.py:211), so a caller entry bound to the
discovered key (`"Task"` under `titleOracle`) overwrites the new title in
the request actually sent: the sent properties hold `"OVERRIDE"`, not the
title payload. -/
theorem C7_counterexample :
    (NOTION_UPDATE_PAGE titleOracle zeroId (some "New") none none none
        (some [("Task", JValue.str "OVERRIDE")])).2 =
      [retrieveReq zeroId,
       ⟨.pagesUpdate, [("page_id", .str zeroId),
          ("properties", .obj [("Task", JValue.str "OVERRIDE")])]⟩] ∧
    JValue.str "OVERRIDE" ≠ titleJson "New" := by
  exact ⟨rfl, by simp [titleJson]⟩

/-- The normal form of a titled `NOTION_UPDATE_PAGE` request: the title
is stored under the discovered key and the caller's properties are then
merged over it with `dict.update`. -/
theorem UPDATE_PAGE_request (o : Oracle) (page_id t : String) (archived : Option Bool)
    (cover_url icon_emoji : Option String) (properties : Option (List (String × JValue)))
    (hv : validate_notion_id (.str page_id) = true) (ht : t.isEmpty = false) :
    NOTION_UPDATE_PAGE o page_id (some t) archived cover_url icon_emoji properties =
      (let meta := safe_execute (o (retrieveReq page_id))
       let K := if meta.successful then firstTitleKey (jGetObjD meta.data "properties")
                else "Name"
       let pre : List (String × JValue) :=
         (optArchived archived ++ optCover cover_url) ++ optIcon icon_emoji
       let req : Request := ⟨.pagesUpdate, ("page_id", .str page_id) :: (pre ++
         [("properties", .obj (dictUpdate [(K, titleJson t)] (callerProps properties)))])⟩
       (safe_execute (o req), [retrieveReq page_id, req])) := by
  have hpre : ∀ q : String × JValue,
      q ∈ ((optArchived archived ++ optCover cover_url) ++ optIcon icon_emoji) →
      q.1 ≠ "properties" := by
    intro q hq
    rcases List.mem_append.mp hq with h | h
    · rcases List.mem_append.mp h with h | h
      · rcases archived with _ | b <;> simp_all [optArchived]
      · rcases cover_url with _ | c
        · simp [optCover] at h
        · by_cases hc : c.isEmpty <;> simp_all [optCover]
    · rcases icon_emoji with _ | e
      · simp [optIcon] at h
      · by_cases he : e.isEmpty <;> simp_all [optIcon]
  unfold NOTION_UPDATE_PAGE
  rw [if_neg (by simp [hv])]
  simp only [ht, Bool.false_eq_true, if_false]
  rcases properties with _ | ps
  · rfl
  · by_cases hps : ps.isEmpty
    · simp only [hps, callerProps]
      rfl
    · simp only [hps, Bool.false_eq_true, if_false, callerProps]
      rw [lookup_append_of_keys_ne _ _ _ hpre]
      simp only [List.lookup, beq_self_eq_true]
      rw [upsert_append_of_keys_ne _ _ _ _ hpre]
      simp [upsert]

/-- **C7 (amended).**  For every `NOTION_UPDATE_PAGE` call with a truthy
title: the operation first issues `pages.retrieve` for the page, builds
the new title under a key `K` — the key of the first title-typed property
of the retrieved page when the retrieval succeeds (defaulting to `"Name"`
when none is title-typed), and the conventional `"Name"` when the
retrieval fails, never failing on that account — and then merges any
caller-supplied `properties` over it with `dict.update`, so the sent
payload carries the title under `K` exactly when the caller's properties
do not themselves bind `K` (a caller entry under `K` overwrites it). -/
theorem C7_title_update_amended (o : Oracle) (page_id t : String) (archived : Option Bool)
    (cover_url icon_emoji : Option String) (properties : Option (List (String × JValue)))
    (hv : validate_notion_id (.str page_id) = true) (ht : t.isEmpty = false) :
    ∃ (K : String) (pre : List (String × JValue)),
      (NOTION_UPDATE_PAGE o page_id (some t) archived cover_url icon_emoji properties =
        (safe_execute (o ⟨.pagesUpdate, ("page_id", .str page_id) :: (pre ++
            [("properties", .obj (dictUpdate [(K, titleJson t)] (callerProps properties)))])⟩),
         [retrieveReq page_id,
          ⟨.pagesUpdate, ("page_id", .str page_id) :: (pre ++
            [("properties", .obj (dictUpdate [(K, titleJson t)] (callerProps properties)))])⟩])) ∧
      (∀ q ∈ pre, q.1 ≠ "properties") ∧
      ((∀ q ∈ callerProps properties, q.1 ≠ K) →
        (dictUpdate [(K, titleJson t)] (callerProps properties)).lookup K
          = some (titleJson t)) ∧
      (match o (retrieveReq page_id) with
       | .ok meta =>
          (∃ v, (K, v) ∈ jGetObjD meta "properties" ∧ hasTitleMark v = true) ∨
          (K = "Name" ∧ ∀ p ∈ jGetObjD meta "properties", hasTitleMark p.2 = false)
       | .error _ => K = "Name") := by
  have hpre : ∀ q : String × JValue,
      q ∈ ((optArchived archived ++ optCover cover_url) ++ optIcon icon_emoji) →
      q.1 ≠ "properties" := by
    intro q hq
    rcases List.mem_append.mp hq with h | h
    · rcases List.mem_append.mp h with h | h
      · rcases archived with _ | b <;> simp_all [optArchived]
      · rcases cover_url with _ | c
        · simp [optCover] at h
        · by_cases hc : c.isEmpty <;> simp_all [optCover]
    · rcases icon_emoji with _ | e
      · simp [optIcon] at h
      · by_cases he : e.isEmpty <;> simp_all [optIcon]
  have surv : ∀ K : String, (∀ q2 ∈ callerProps properties, q2.1 ≠ K) →
      (dictUpdate [(K, titleJson t)] (callerProps properties)).lookup K
        = some (titleJson t) := by
    intro K hK
    rw [dictUpdate_lookup_of_keys_ne _ _ _ hK]
    simp [List.lookup]
  have hrun := UPDATE_PAGE_request o page_id t archived cover_url icon_emoji properties hv ht
  cases ho : o (retrieveReq page_id) with
  | ok meta =>
    cases hf : (jGetObjD meta "properties").find? (fun p => hasTitleMark p.2) with
    | some q =>
      refine ⟨q.1, _, ?_, hpre, surv q.1, ?_⟩
      · rw [hrun]
        simp [ho, safe_execute, firstTitleKey, hf]
      · simp only [ho]
        exact Or.inl ⟨q.2, List.mem_of_find?_eq_some hf, by simpa using List.find?_some hf⟩
    | none =>
      refine ⟨"Name", _, ?_, hpre, surv "Name", ?_⟩
      · rw [hrun]
        simp [ho, safe_execute, firstTitleKey, hf]
      · simp only [ho]
        exact Or.inr ⟨by simp, fun p hp => by simpa using List.find?_eq_none.mp hf p hp⟩
  | error e =>
    refine ⟨"Name", _, ?_, hpre, surv "Name", ?_⟩
    · rw [hrun]
      simp [ho, safe_execute]
    · simp only [ho]

/-- Witness for C7 (amended): a concrete titled update with a
non-binding caller properties dict against `titleOracle`. -/
theorem C7_title_update_amended_witness :
    ∃ (K : String) (pre : List (String × JValue)),
      NOTION_UPDATE_PAGE titleOracle zeroId (some "New") none none none
          (some [("Other", JValue.str "x")]) =
        (safe_execute (titleOracle ⟨.pagesUpdate, ("page_id", .str zeroId) :: (pre ++
            [("properties", .obj (dictUpdate [(K, titleJson "New")]
              (callerProps (some [("Other", JValue.str "x")]))))])⟩),
         [retrieveReq zeroId,
          ⟨.pagesUpdate, ("page_id", .str zeroId) :: (pre ++
            [("properties", .obj (dictUpdate [(K, titleJson "New")]
              (callerProps (some [("Other", JValue.str "x")]))))])⟩]) := by
  obtain ⟨K, pre, h1, -, -, -⟩ := C7_title_update_amended titleOracle zeroId "New"
    none none none (some [("Other", JValue.str "x")]) (by decide) rfl
  exact ⟨K, pre, h1⟩
-- ---------------- C8: block append limits ----------------

/-- **C8 (confirmed).**  For both content-unit append operations (with a
valid parent identifier): a list of more than 100 units yields the
failure envelope citing the 100-item maximum with zero collaborator
calls, and an empty or non-list units argument yields a failure envelope
(citing the non-empty-list requirement) with zero collaborator calls. -/
theorem C8_append_limits (o : Oracle) (pid bid : String) (units : JValue)
    (after : Option String)
    (hp : validate_notion_id (.str pid) = true)
    (hb : validate_notion_id (.str bid) = true) :
    (∀ bs, units = .arr bs → 100 < bs.length →
      NOTION_ADD_MULTIPLE_PAGE_CONTENT o pid units after =
        (invalidEnv "Maximum 100 blocks per request", []) ∧
      NOTION_APPEND_BLOCK_CHILDREN o bid units after =
        (invalidEnv "Maximum 100 blocks per request", [])) ∧
    ((∀ bs, units = .arr bs → bs = []) →
      NOTION_ADD_MULTIPLE_PAGE_CONTENT o pid units after =
        (invalidEnv "content_blocks must be a non-empty list", []) ∧
      NOTION_APPEND_BLOCK_CHILDREN o bid units after =
        (invalidEnv "children must be a non-empty list", [])) := by
  constructor
  · rintro bs rfl hlen
    have hne : bs.isEmpty = false := by
      rcases bs with _ | ⟨x, xs⟩
      · simp at hlen
      · simp
    constructor
    · simp [NOTION_ADD_MULTIPLE_PAGE_CONTENT, hp, hne, hlen]
    · simp [NOTION_APPEND_BLOCK_CHILDREN, hb, hne, hlen]
  · intro hbad
    cases units with
    | arr bs =>
      have : bs = [] := hbad bs rfl
      subst this
      exact ⟨by simp [NOTION_ADD_MULTIPLE_PAGE_CONTENT, hp],
             by simp [NOTION_APPEND_BLOCK_CHILDREN, hb]⟩
    | null => exact ⟨by simp [NOTION_ADD_MULTIPLE_PAGE_CONTENT, hp],
                     by simp [NOTION_APPEND_BLOCK_CHILDREN, hb]⟩
    | bool b => exact ⟨by simp [NOTION_ADD_MULTIPLE_PAGE_CONTENT, hp],
                       by simp [NOTION_APPEND_BLOCK_CHILDREN, hb]⟩
    | num n => exact ⟨by simp [NOTION_ADD_MULTIPLE_PAGE_CONTENT, hp],
                      by simp [NOTION_APPEND_BLOCK_CHILDREN, hb]⟩
    | str s => exact ⟨by simp [NOTION_ADD_MULTIPLE_PAGE_CONTENT, hp],
                      by simp [NOTION_APPEND_BLOCK_CHILDREN, hb]⟩
    | obj fs => exact ⟨by simp [NOTION_ADD_MULTIPLE_PAGE_CONTENT, hp],
                       by simp [NOTION_APPEND_BLOCK_CHILDREN, hb]⟩

/-- Witness for C8: a 101-item list and a non-list argument, both
rejected locally with zero collaborator calls. -/
theorem C8_append_limits_witness :
    (NOTION_ADD_MULTIPLE_PAGE_CONTENT okOracle zeroId
        (.arr (List.replicate 101 (JValue.obj []))) none =
      (invalidEnv "Maximum 100 blocks per request", []) ∧
     NOTION_APPEND_BLOCK_CHILDREN okOracle zeroId
        (.arr (List.replicate 101 (JValue.obj []))) none =
      (invalidEnv "Maximum 100 blocks per request", [])) ∧
    (NOTION_ADD_MULTIPLE_PAGE_CONTENT okOracle zeroId (.str "oops") none =
      (invalidEnv "content_blocks must be a non-empty list", []) ∧
     NOTION_APPEND_BLOCK_CHILDREN okOracle zeroId (.str "oops") none =
      (invalidEnv "children must be a non-empty list", [])) := by
  constructor
  · exact (C8_append_limits okOracle zeroId zeroId
      (.arr (List.replicate 101 (JValue.obj []))) none (by decide) (by decide)).1
      (List.replicate 101 (JValue.obj [])) rfl (by simp)
  · exact (C8_append_limits okOracle zeroId zeroId (.str "oops") none
      (by decide) (by decide)).2 (fun bs h => by cases h)

-- ---------------- C9: update-row archived default ----------------

/-- **C9 (confirmed).**  `NOTION_UPDATE_ROW_DATABASE` called without an
`archived` argument (so with its declared default) sends a payload that
still contains `archived = false`: the default is `False`, not absent,
and the payload includes the flag whenever it is not `None`. -/
theorem C9_update_row_archived_default (o : Oracle) (page_id : String)
    (properties : Option (List (String × JValue))) (icon cover : Option String)
    (hv : validate_notion_id (.str page_id) = true) :
    ∃ req : Request,
      NOTION_UPDATE_ROW_DATABASE o page_id properties icon cover =
        (safe_execute (o req), [req]) ∧
      req.endpoint = .pagesUpdate ∧
      ("archived", JValue.bool false) ∈ req.kwargs := by
  refine ⟨⟨.pagesUpdate, ("page_id", .str page_id) ::
    ((match properties with
      | some ps => if ps.isEmpty then [] else [("properties", JValue.obj ps)]
      | none => []) ++
     (match icon with
      | some e => if e.isEmpty then [] else [("icon", iconJson e)]
      | none => []) ++
     (match cover with
      | some c => if c.isEmpty then [] else [("cover", coverJson c)]
      | none => []) ++
     [("archived", JValue.bool false)])⟩, ?_, rfl, ?_⟩
  · simp only [NOTION_UPDATE_ROW_DATABASE, hv, Bool.not_true]
    rw [if_neg (by simp)]
    rfl
  · simp

/-- Witness for C9: a concrete row update omitting `archived`. -/
theorem C9_update_row_archived_default_witness :
    ∃ req : Request,
      NOTION_UPDATE_ROW_DATABASE okOracle zeroId none none none =
        (safe_execute (okOracle req), [req]) ∧
      req.endpoint = .pagesUpdate ∧
      ("archived", JValue.bool false) ∈ req.kwargs :=
  C9_update_row_archived_default okOracle zeroId none none none (by decide)

-- ---------------- C10: get_pages is ignored ----------------

/-- **C10 (confirmed).**  `NOTION_FETCH_DATA` never reads `get_pages`:
two calls differing only in that flag are identical, and when `get_all`
is false the search filter is `"database"` exactly when `get_databases`
is set and `"page"` otherwise — so `get_databases = true` with
`get_pages = true` still returns only databases. -/
theorem C10_fetch_data_ignores_get_pages (o : Oracle) (get_all get_databases gp gp2 : Bool)
    (page_size : Int) (query : Option String) :
    NOTION_FETCH_DATA o get_all get_databases gp page_size query =
      NOTION_FETCH_DATA o get_all get_databases gp2 page_size query ∧
    (get_all = false →
      ∃ kw, NOTION_FETCH_DATA o get_all get_databases gp page_size query =
        (safe_execute (o ⟨.search, kw⟩), [⟨.search, kw⟩]) ∧
        kw.lookup "filter" =
          some (.obj [("property", .str "object"),
                      ("value", .str (if get_databases then "database" else "page"))])) := by
  refine ⟨rfl, ?_⟩
  rintro rfl
  refine ⟨([("page_size", JValue.num page_size)] ++
    (match query with
     | some q => if q.isEmpty then [] else [("query", JValue.str q)]
     | none => [])) ++
    [("filter", JValue.obj [("property", .str "object"),
      ("value", .str (if get_databases then "database" else "page"))])], ?_, ?_⟩
  · simp only [NOTION_FETCH_DATA, Bool.false_eq_true, if_false, List.append_assoc]
    rfl
  · rcases query with _ | q
    · simp [List.lookup]
    · by_cases hq : q.isEmpty <;> simp [hq, List.lookup]

/-- Witness for C10: `get_all = false`, `get_databases = true`,
`get_pages = true` — the filter is still `"database"`. -/
theorem C10_fetch_data_ignores_get_pages_witness :
    ∃ kw, NOTION_FETCH_DATA okOracle false true true 100 none =
      (safe_execute (okOracle ⟨.search, kw⟩), [⟨.search, kw⟩]) ∧
      kw.lookup "filter" =
        some (.obj [("property", .str "object"), ("value", .str "database")]) := by
  have h := (C10_fetch_data_ignores_get_pages okOracle false true true false 100 none).2 rfl
  exact h

-- ---------------- C5: envelope invariant ----------------

/-- The envelope invariant claimed by the spec (§3, §8): null error on
success; empty-mapping data and non-null error on failure. -/
def envInv (e : Envelope) : Prop :=
  (e.successful = true → e.error = none) ∧
  (e.successful = false → e.data = .obj [] ∧ e.error ≠ none)

/-- The variant `list_pages` actually satisfies: on success its error
field is the empty string, not null. -/
def envInvListPages (e : Envelope) : Prop :=
  (e.successful = true → e.error = some "") ∧
  (e.successful = false → e.data = .obj [] ∧ e.error ≠ none)

/-- `safe_execute` always produces an invariant-satisfying envelope. -/
theorem envInv_safe_execute (r : Except String JValue) : envInv (safe_execute r) := by
  cases r <;> simp [envInv, safe_execute]

/-- Local validation failures satisfy the invariant. -/
theorem envInv_invalidEnv (msg : String) : envInv (invalidEnv msg) := by
  simp [envInv, invalidEnv]

/-- Replacing the data of a successful envelope preserves the invariant. -/
theorem envInv_with_data (res : Envelope) (d : JValue) (h : envInv res)
    (hs : res.successful = true) : envInv { res with data := d } := by
  obtain ⟨h1, _⟩ := h
  exact ⟨fun _ => h1 hs, fun hf => absurd hs (by simp [show res.successful = false from hf])⟩

/-- A failing envelope satisfying the general invariant also satisfies
the `list_pages` variant. -/
theorem envInvLP_of_fail (res : Envelope) (h : envInv res) (hf : res.successful = false) :
    envInvListPages res := by
  obtain ⟨_, h2⟩ := h
  exact ⟨fun hs => absurd hs (by simp [hf]), h2⟩

/-- Envelope invariant for `NOTION_GET_ABOUT_ME`. -/
theorem envInv_GET_ABOUT_ME (o : Oracle) : envInv (NOTION_GET_ABOUT_ME o).1 :=
  envInv_safe_execute _

/-- The success-projection shape shared by `NOTION_LIST_USERS`. -/
theorem envInv_proj_shape (res : Envelope) (d : JValue) (l : List Request) (h : envInv res) :
    envInv ((if res.successful then ({ res with data := d }, l) else (res, l)).1) := by
  by_cases hs : res.successful
  · rw [if_pos hs]
    exact envInv_with_data res d h hs
  · rw [if_neg hs]
    exact h

/-- Envelope invariant for `NOTION_LIST_USERS`. -/
theorem envInv_LIST_USERS (o : Oracle) (ps : Int) (sc : Option String) :
    envInv (NOTION_LIST_USERS o ps sc).1 := by
  unfold NOTION_LIST_USERS
  exact envInv_proj_shape _ _ _ (envInv_safe_execute _)

/-- Envelope invariant for `NOTION_GET_ABOUT_USER`. -/
theorem envInv_GET_ABOUT_USER (o : Oracle) (uid : String) :
    envInv (NOTION_GET_ABOUT_USER o uid).1 := by
  unfold NOTION_GET_ABOUT_USER
  split
  · exact envInv_invalidEnv _
  · exact envInv_safe_execute _

/-- Envelope invariant for `NOTION_CREATE_NOTION_PAGE`. -/
theorem envInv_CREATE_NOTION_PAGE (o : Oracle) (pid t : String) (cover icon : Option String) :
    envInv (NOTION_CREATE_NOTION_PAGE o pid t cover icon).1 := by
  unfold NOTION_CREATE_NOTION_PAGE
  split
  · exact envInv_invalidEnv _
  · exact envInv_safe_execute _

/-- Envelope invariant for `NOTION_UPDATE_PAGE`. -/
theorem envInv_UPDATE_PAGE (o : Oracle) (pid : String) (title : Option String)
    (archived : Option Bool) (cover icon : Option String)
    (props : Option (List (String × JValue))) :
    envInv (NOTION_UPDATE_PAGE o pid title archived cover icon props).1 := by
  unfold NOTION_UPDATE_PAGE
  split
  · exact envInv_invalidEnv _
  · exact envInv_safe_execute _

/-- Envelope invariant for `NOTION_GET_PAGE_PROPERTY_ACTION`. -/
theorem envInv_GET_PAGE_PROPERTY_ACTION (o : Oracle) (pid prid : String)
    (ps : Option Int) (sc : Option String) :
    envInv (NOTION_GET_PAGE_PROPERTY_ACTION o pid prid ps sc).1 := by
  unfold NOTION_GET_PAGE_PROPERTY_ACTION
  split
  · exact envInv_invalidEnv _
  · exact envInv_safe_execute _

/-- Envelope invariant for `NOTION_ARCHIVE_NOTION_PAGE`. -/
theorem envInv_ARCHIVE_NOTION_PAGE (o : Oracle) (pid : String) (ar : Bool) :
    envInv (NOTION_ARCHIVE_NOTION_PAGE o pid ar).1 := by
  unfold NOTION_ARCHIVE_NOTION_PAGE
  split
  · exact envInv_invalidEnv _
  · exact envInv_safe_execute _

/-- The result shape of `list_pages`. -/
theorem envInvLP_shape (res : Envelope) (d : JValue) (l : List Request) (h : envInv res) :
    envInvListPages ((if (!res.successful) = true then (res, l)
      else (⟨true, d, some ""⟩, l)).1) := by
  by_cases hs : res.successful
  · rw [if_neg (by simp [hs])]
    exact ⟨fun _ => rfl, fun hf => by simp at hf⟩
  · rw [if_pos (by simp [Bool.not_eq_true] at hs ⊢; exact hs)]
    exact envInvLP_of_fail res h (by simpa using hs)

/-- `list_pages` satisfies only the empty-string-error variant. -/
theorem envInvLP_list_pages (o : Oracle) (kw : Option String) :
    envInvListPages (list_pages o kw).1 := by
  unfold list_pages
  exact envInvLP_shape _ _ _ (envInv_safe_execute _)

/-- Envelope invariant for `NOTION_CREATE_DATABASE`. -/
theorem envInv_CREATE_DATABASE (o : Oracle) (pid t : String)
    (props : List (String × JValue)) :
    envInv (NOTION_CREATE_DATABASE o pid t props).1 := by
  unfold NOTION_CREATE_DATABASE
  repeat' split
  all_goals first
    | exact envInv_invalidEnv _
    | exact envInv_safe_execute _

/-- Envelope invariant for `NOTION_INSERT_ROW_DATABASE`. -/
theorem envInv_INSERT_ROW_DATABASE (o : Oracle) (dbid : String)
    (props : List (String × JValue)) (icon cover : Option String)
    (children : Option (List JValue)) :
    envInv (NOTION_INSERT_ROW_DATABASE o dbid props icon cover children).1 := by
  unfold NOTION_INSERT_ROW_DATABASE
  split
  · exact envInv_invalidEnv _
  · exact envInv_safe_execute _

/-- Envelope invariant for `NOTION_QUERY_DATABASE`, on its non-raising
runs. -/
theorem envInv_QUERY_DATABASE (o : Oracle) (dbid : String) (ps : Int)
    (sorts : Option (List (List (String × JValue)))) (sc : Option String)
    (env : Envelope) (log : List Request)
    (h : NOTION_QUERY_DATABASE o dbid ps sorts sc = .ok (env, log)) : envInv env := by
  unfold NOTION_QUERY_DATABASE at h
  split at h
  · obtain ⟨h1, _⟩ := Prod.mk.injEq .. |>.mp (Except.ok.inj h)
    exact h1 ▸ envInv_invalidEnv _
  · rcases sorts with _ | ss
    · obtain ⟨h1, _⟩ := Prod.mk.injEq .. |>.mp (Except.ok.inj h)
      exact h1 ▸ envInv_safe_execute _
    · dsimp only at h
      by_cases he : ss.isEmpty
      · rw [if_pos he] at h
        obtain ⟨h1, _⟩ := Prod.mk.injEq .. |>.mp (Except.ok.inj h)
        exact h1 ▸ envInv_safe_execute _
      · rw [if_neg he] at h
        rcases hm : ss.mapM sortItem with e | mapped
        · rw [hm] at h
          cases h
        · rw [hm] at h
          obtain ⟨h1, _⟩ := Prod.mk.injEq .. |>.mp (Except.ok.inj h)
          exact h1 ▸ envInv_safe_execute _

/-- Envelope invariant for `NOTION_FETCH_DATABASE`. -/
theorem envInv_FETCH_DATABASE (o : Oracle) (dbid : String) :
    envInv (NOTION_FETCH_DATABASE o dbid).1 := by
  unfold NOTION_FETCH_DATABASE
  split
  · exact envInv_invalidEnv _
  · exact envInv_safe_execute _

/-- Envelope invariant for `NOTION_FETCH_ROW`. -/
theorem envInv_FETCH_ROW (o : Oracle) (pid : String) :
    envInv (NOTION_FETCH_ROW o pid).1 := by
  unfold NOTION_FETCH_ROW
  split
  · exact envInv_invalidEnv _
  · exact envInv_safe_execute _

/-- Envelope invariant for `NOTION_UPDATE_ROW_DATABASE`. -/
theorem envInv_UPDATE_ROW_DATABASE (o : Oracle) (pid : String)
    (props : Option (List (String × JValue))) (icon cover : Option String)
    (archived : Option Bool) :
    envInv (NOTION_UPDATE_ROW_DATABASE o pid props icon cover archived).1 := by
  unfold NOTION_UPDATE_ROW_DATABASE
  split
  · exact envInv_invalidEnv _
  · exact envInv_safe_execute _

/-- Envelope invariant for `NOTION_UPDATE_SCHEMA_DATABASE`. -/
theorem envInv_UPDATE_SCHEMA_DATABASE (o : Oracle) (dbid : String)
    (title description : Option String) (props : Option (List (String × JValue))) :
    envInv (NOTION_UPDATE_SCHEMA_DATABASE o dbid title description props).1 := by
  unfold NOTION_UPDATE_SCHEMA_DATABASE
  split
  · exact envInv_invalidEnv _
  · exact envInv_safe_execute _

/-- Envelope invariant for `NOTION_ADD_MULTIPLE_PAGE_CONTENT`. -/
theorem envInv_ADD_MULTIPLE_PAGE_CONTENT (o : Oracle) (pid : String)
    (units : JValue) (after : Option String) :
    envInv (NOTION_ADD_MULTIPLE_PAGE_CONTENT o pid units after).1 := by
  unfold NOTION_ADD_MULTIPLE_PAGE_CONTENT
  repeat' split
  all_goals first
    | exact envInv_invalidEnv _
    | exact envInv_safe_execute _

/-- Envelope invariant for `NOTION_ADD_PAGE_CONTENT`. -/
theorem envInv_ADD_PAGE_CONTENT (o : Oracle) (pid : String)
    (unit : JValue) (after : Option String) :
    envInv (NOTION_ADD_PAGE_CONTENT o pid unit after).1 := by
  unfold NOTION_ADD_PAGE_CONTENT
  repeat' split
  all_goals first
    | exact envInv_invalidEnv _
    | exact envInv_safe_execute _

/-- Envelope invariant for `NOTION_APPEND_BLOCK_CHILDREN`. -/
theorem envInv_APPEND_BLOCK_CHILDREN (o : Oracle) (bid : String)
    (children : JValue) (after : Option String) :
    envInv (NOTION_APPEND_BLOCK_CHILDREN o bid children after).1 := by
  unfold NOTION_APPEND_BLOCK_CHILDREN
  repeat' split
  all_goals first
    | exact envInv_invalidEnv _
    | exact envInv_safe_execute _

/-- Envelope invariant for `NOTION_UPDATE_BLOCK`. -/
theorem envInv_UPDATE_BLOCK (o : Oracle) (bid bt content : String)
    (addl : Option (List (String × JValue))) :
    envInv (NOTION_UPDATE_BLOCK o bid bt content addl).1 := by
  unfold NOTION_UPDATE_BLOCK
  repeat' split
  all_goals first
    | exact envInv_invalidEnv _
    | exact envInv_safe_execute _

/-- Envelope invariant for `NOTION_DELETE_BLOCK`. -/
theorem envInv_DELETE_BLOCK (o : Oracle) (bid : String) :
    envInv (NOTION_DELETE_BLOCK o bid).1 := by
  unfold NOTION_DELETE_BLOCK
  split
  · exact envInv_invalidEnv _
  · exact envInv_safe_execute _

/-- Envelope invariant for `NOTION_FETCH_BLOCK_CONTENTS`. -/
theorem envInv_FETCH_BLOCK_CONTENTS (o : Oracle) (bid : String)
    (ps : Option Int) (sc : Option String) :
    envInv (NOTION_FETCH_BLOCK_CONTENTS o bid ps sc).1 := by
  unfold NOTION_FETCH_BLOCK_CONTENTS
  split
  · exact envInv_invalidEnv _
  · exact envInv_safe_execute _

/-- Envelope invariant for `NOTION_FETCH_BLOCK_METADATA`. -/
theorem envInv_FETCH_BLOCK_METADATA (o : Oracle) (bid : String) :
    envInv (NOTION_FETCH_BLOCK_METADATA o bid).1 := by
  unfold NOTION_FETCH_BLOCK_METADATA
  split
  · exact envInv_invalidEnv _
  · exact envInv_safe_execute _

/-- Envelope invariant for `NOTION_CREATE_COMMENT`. -/
theorem envInv_CREATE_COMMENT (o : Oracle) (comment : List (String × JValue))
    (did ppid : Option String) :
    envInv (NOTION_CREATE_COMMENT o comment did ppid).1 := by
  unfold NOTION_CREATE_COMMENT
  split
  · exact envInv_invalidEnv _
  · exact envInv_safe_execute _

/-- The scan shape of `NOTION_GET_COMMENT_BY_ID` after a successful
listing call. -/
theorem envInv_scan_shape (res : Envelope) (cid msg : String) (l : List Request)
    (h : envInv res) :
    envInv ((if (!res.successful) = true then (res, l)
      else
        match (getResults res.data).find? (matchesCommentId cid) with
        | some c => (⟨true, c, none⟩, l)
        | none => (invalidEnv msg, l)).1) := by
  by_cases hs : res.successful
  · rw [if_neg (by simp [hs])]
    cases hf : (getResults res.data).find? (matchesCommentId cid) with
    | some c => simp [hf, envInv]
    | none => simpa [hf] using envInv_invalidEnv msg
  · rw [if_pos (by simp [Bool.not_eq_true] at hs ⊢; exact hs)]
    exact h

/-- Envelope invariant for `NOTION_GET_COMMENT_BY_ID`. -/
theorem envInv_GET_COMMENT_BY_ID (o : Oracle) (pbid cid : String) :
    envInv (NOTION_GET_COMMENT_BY_ID o pbid cid).1 := by
  unfold NOTION_GET_COMMENT_BY_ID
  split
  · exact envInv_invalidEnv _
  · exact envInv_scan_shape _ _ _ _ (envInv_safe_execute _)

/-- Envelope invariant for `NOTION_FETCH_COMMENTS`. -/
theorem envInv_FETCH_COMMENTS (o : Oracle) (bid : String)
    (ps : Option Int) (sc : Option String) :
    envInv (NOTION_FETCH_COMMENTS o bid ps sc).1 := by
  unfold NOTION_FETCH_COMMENTS
  split
  · exact envInv_invalidEnv _
  · exact envInv_safe_execute _

/-- Envelope invariant for `NOTION_SEARCH_NOTION_PAGE`. -/
theorem envInv_SEARCH_NOTION_PAGE (o : Oracle) (query : Option String)
    (ps : Int) (sc : Option String) :
    envInv (NOTION_SEARCH_NOTION_PAGE o query ps sc).1 :=
  envInv_safe_execute _

/-- Envelope invariant for `NOTION_FETCH_DATA`. -/
theorem envInv_FETCH_DATA (o : Oracle) (ga gd gp : Bool) (ps : Int)
    (query : Option String) :
    envInv (NOTION_FETCH_DATA o ga gd gp ps query).1 := by
  unfold NOTION_FETCH_DATA
  repeat' split
  all_goals exact envInv_safe_execute _

/-- **C5 counterexample.**  The claim says every successful operation
envelope has `error` equal to null; but `list_pages` on a successful
search returns `error = ""` (an empty string, which is not null). -/
theorem C5_counterexample :
    (list_pages okOracle none).1.successful = true ∧
    (list_pages okOracle none).1.error = some "" ∧
    (some "" : Option String) ≠ none := by
  refine ⟨rfl, rfl, by simp⟩

/-- **C5 (amended).**  The result normalizer returns the collaborator's
raw value with a null error on success, and empty-mapping data with the
fault string on failure; and every operation's envelope satisfies the
invariant — success implies null error and failure implies empty-mapping
data with a non-null error — with the single exception of `list_pages`,
whose successful envelope carries the empty string (a non-null, falsy
value) in its error field instead of null. -/
theorem C5_envelope_invariant_amended :
    (∀ d : JValue, safe_execute (.ok d) = ⟨true, d, none⟩) ∧
    (∀ e : String, safe_execute (.error e) = ⟨false, .obj [], some e⟩) ∧
    (∀ o, envInv (NOTION_GET_ABOUT_ME o).1) ∧
    (∀ o ps sc, envInv (NOTION_LIST_USERS o ps sc).1) ∧
    (∀ o uid, envInv (NOTION_GET_ABOUT_USER o uid).1) ∧
    (∀ o pid t cover icon, envInv (NOTION_CREATE_NOTION_PAGE o pid t cover icon).1) ∧
    (∀ o pid title archived cover icon props,
      envInv (NOTION_UPDATE_PAGE o pid title archived cover icon props).1) ∧
    (∀ o pid prid ps sc, envInv (NOTION_GET_PAGE_PROPERTY_ACTION o pid prid ps sc).1) ∧
    (∀ o pid ar, envInv (NOTION_ARCHIVE_NOTION_PAGE o pid ar).1) ∧
    (∀ o kw, envInvListPages (list_pages o kw).1) ∧
    (∀ o pid t props, envInv (NOTION_CREATE_DATABASE o pid t props).1) ∧
    (∀ o dbid props icon cover children,
      envInv (NOTION_INSERT_ROW_DATABASE o dbid props icon cover children).1) ∧
    (∀ o dbid ps sorts sc env log,
      NOTION_QUERY_DATABASE o dbid ps sorts sc = .ok (env, log) → envInv env) ∧
    (∀ o dbid, envInv (NOTION_FETCH_DATABASE o dbid).1) ∧
    (∀ o pid, envInv (NOTION_FETCH_ROW o pid).1) ∧
    (∀ o pid props icon cover archived,
      envInv (NOTION_UPDATE_ROW_DATABASE o pid props icon cover archived).1) ∧
    (∀ o dbid t d props, envInv (NOTION_UPDATE_SCHEMA_DATABASE o dbid t d props).1) ∧
    (∀ o pid units after, envInv (NOTION_ADD_MULTIPLE_PAGE_CONTENT o pid units after).1) ∧
    (∀ o pid unit after, envInv (NOTION_ADD_PAGE_CONTENT o pid unit after).1) ∧
    (∀ o bid children after, envInv (NOTION_APPEND_BLOCK_CHILDREN o bid children after).1) ∧
    (∀ o bid bt content addl, envInv (NOTION_UPDATE_BLOCK o bid bt content addl).1) ∧
    (∀ o bid, envInv (NOTION_DELETE_BLOCK o bid).1) ∧
    (∀ o bid ps sc, envInv (NOTION_FETCH_BLOCK_CONTENTS o bid ps sc).1) ∧
    (∀ o bid, envInv (NOTION_FETCH_BLOCK_METADATA o bid).1) ∧
    (∀ o comment did ppid, envInv (NOTION_CREATE_COMMENT o comment did ppid).1) ∧
    (∀ o pbid cid, envInv (NOTION_GET_COMMENT_BY_ID o pbid cid).1) ∧
    (∀ o bid ps sc, envInv (NOTION_FETCH_COMMENTS o bid ps sc).1) ∧
    (∀ o q ps sc, envInv (NOTION_SEARCH_NOTION_PAGE o q ps sc).1) ∧
    (∀ o ga gd gp ps q, envInv (NOTION_FETCH_DATA o ga gd gp ps q).1) :=
  ⟨fun _ => rfl, fun _ => rfl, envInv_GET_ABOUT_ME, envInv_LIST_USERS, envInv_GET_ABOUT_USER,
   envInv_CREATE_NOTION_PAGE, envInv_UPDATE_PAGE, envInv_GET_PAGE_PROPERTY_ACTION,
   envInv_ARCHIVE_NOTION_PAGE, envInvLP_list_pages, envInv_CREATE_DATABASE,
   envInv_INSERT_ROW_DATABASE, envInv_QUERY_DATABASE, envInv_FETCH_DATABASE, envInv_FETCH_ROW,
   envInv_UPDATE_ROW_DATABASE, envInv_UPDATE_SCHEMA_DATABASE, envInv_ADD_MULTIPLE_PAGE_CONTENT,
   envInv_ADD_PAGE_CONTENT, envInv_APPEND_BLOCK_CHILDREN, envInv_UPDATE_BLOCK,
   envInv_DELETE_BLOCK, envInv_FETCH_BLOCK_CONTENTS, envInv_FETCH_BLOCK_METADATA,
   envInv_CREATE_COMMENT, envInv_GET_COMMENT_BY_ID, envInv_FETCH_COMMENTS,
   envInv_SEARCH_NOTION_PAGE, envInv_FETCH_DATA⟩

/-- Witness for C5 (amended): concrete success, local-failure and
query-database instances with the hypotheses discharged. -/
theorem C5_envelope_invariant_amended_witness :
    (NOTION_GET_ABOUT_ME okOracle).1.error = none ∧
    (NOTION_FETCH_ROW okOracle "zz").1.data = .obj [] ∧
    (NOTION_FETCH_ROW okOracle "zz").1.error ≠ none ∧
    (list_pages okOracle none).1.error = some "" ∧
    (⟨true, .obj [], none⟩ : Envelope).error = none := by
  obtain ⟨-, -, h3, -, -, -, -, -, -, h10, -, -, h13, -, h15, -⟩ :=
    C5_envelope_invariant_amended
  refine ⟨(h3 okOracle).1 rfl, ?_, ?_, (h10 okOracle none).1 rfl, ?_⟩
  · exact ((h15 okOracle "zz").2 rfl).1
  · exact ((h15 okOracle "zz").2 rfl).2
  · exact (h13 okOracle zeroId 10 none none ⟨true, .obj [], none⟩
      [⟨.databasesQuery, [("database_id", .str zeroId), ("page_size", .num 10)]⟩] rfl).1 rfl

/-- **C1 (amended).**  Every operation that applies the identifier
validator to its primary identifier argument — all the page, database,
block and user operations — returns the corresponding failure envelope
and issues zero collaborator calls when that argument fails the pattern.
Two families of identifier-shaped arguments are forwarded to the
collaborator without any validator check: the optional `after` block
identifier of the three append operations (included in the payload
whenever it is not None), and the identifiers of the comment operations
(`NOTION_CREATE_COMMENT`'s discussion/parent-page ids,
`NOTION_GET_COMMENT_BY_ID`'s block/comment ids and
`NOTION_FETCH_COMMENTS`' block id), which are checked only for presence
(truthiness) — so a malformed identifier in those positions still
produces a collaborator call. -/
theorem C1_invalid_id_rejected_amended :
    (∀ o uid, validate_notion_id (.str uid) = false →
      NOTION_GET_ABOUT_USER o uid = (invalidEnv "Invalid user ID format", [])) ∧
    (∀ o pid t cover icon, validate_notion_id (.str pid) = false →
      NOTION_CREATE_NOTION_PAGE o pid t cover icon =
        (invalidEnv "Invalid parent ID format", [])) ∧
    (∀ o pid title archived cover icon props, validate_notion_id (.str pid) = false →
      NOTION_UPDATE_PAGE o pid title archived cover icon props =
        (invalidEnv "Invalid page_id format", [])) ∧
    (∀ o pid prid ps sc, validate_notion_id (.str pid) = false →
      NOTION_GET_PAGE_PROPERTY_ACTION o pid prid ps sc =
        (invalidEnv "Invalid page_id format", [])) ∧
    (∀ o pid ar, validate_notion_id (.str pid) = false →
      NOTION_ARCHIVE_NOTION_PAGE o pid ar = (invalidEnv "Invalid page_id format", [])) ∧
    (∀ o pid t props, validate_notion_id (.str pid) = false →
      NOTION_CREATE_DATABASE o pid t props = (invalidEnv "Invalid parent_id format", [])) ∧
    (∀ o dbid props icon cover children, validate_notion_id (.str dbid) = false →
      NOTION_INSERT_ROW_DATABASE o dbid props icon cover children =
        (invalidEnv "Invalid database_id format", [])) ∧
    (∀ o dbid ps sorts sc, validate_notion_id (.str dbid) = false →
      NOTION_QUERY_DATABASE o dbid ps sorts sc =
        .ok (invalidEnv "Invalid database_id format", [])) ∧
    (∀ o dbid, validate_notion_id (.str dbid) = false →
      NOTION_FETCH_DATABASE o dbid = (invalidEnv "Invalid database_id format", [])) ∧
    (∀ o pid, validate_notion_id (.str pid) = false →
      NOTION_FETCH_ROW o pid = (invalidEnv "Invalid page_id format", [])) ∧
    (∀ o pid props icon cover archived, validate_notion_id (.str pid) = false →
      NOTION_UPDATE_ROW_DATABASE o pid props icon cover archived =
        (invalidEnv "Invalid page_id format", [])) ∧
    (∀ o dbid t d props, validate_notion_id (.str dbid) = false →
      NOTION_UPDATE_SCHEMA_DATABASE o dbid t d props =
        (invalidEnv "Invalid database_id format", [])) ∧
    (∀ o pid units after, validate_notion_id (.str pid) = false →
      NOTION_ADD_MULTIPLE_PAGE_CONTENT o pid units after =
        (invalidEnv "Invalid parent_block_id", [])) ∧
    (∀ o pid unit after, validate_notion_id (.str pid) = false →
      NOTION_ADD_PAGE_CONTENT o pid unit after = (invalidEnv "Invalid parent_block_id", [])) ∧
    (∀ o bid children after, validate_notion_id (.str bid) = false →
      NOTION_APPEND_BLOCK_CHILDREN o bid children after = (invalidEnv "Invalid block_id", [])) ∧
    (∀ o bid bt content addl, validate_notion_id (.str bid) = false →
      NOTION_UPDATE_BLOCK o bid bt content addl = (invalidEnv "Invalid block_id", [])) ∧
    (∀ o bid, validate_notion_id (.str bid) = false →
      NOTION_DELETE_BLOCK o bid = (invalidEnv "Invalid block_id", [])) ∧
    (∀ o bid ps sc, validate_notion_id (.str bid) = false →
      NOTION_FETCH_BLOCK_CONTENTS o bid ps sc = (invalidEnv "Invalid block_id", [])) ∧
    (∀ o bid, validate_notion_id (.str bid) = false →
      NOTION_FETCH_BLOCK_METADATA o bid = (invalidEnv "Invalid block_id", [])) ∧
    (∀ (o : Oracle) (pid a : String), validate_notion_id (.str pid) = true →
      ∃ req : Request,
        (NOTION_ADD_MULTIPLE_PAGE_CONTENT o pid (.arr [.obj [("content", .str "x")]])
          (some a)).2 = [req] ∧
        ("after", JValue.str a) ∈ req.kwargs) ∧
    (∀ (o : Oracle) (pid a : String), validate_notion_id (.str pid) = true →
      ∃ req : Request,
        (NOTION_ADD_PAGE_CONTENT o pid (.obj []) (some a)).2 = [req] ∧
        ("after", JValue.str a) ∈ req.kwargs) ∧
    (∀ (o : Oracle) (bid a : String), validate_notion_id (.str bid) = true →
      ∃ req : Request,
        (NOTION_APPEND_BLOCK_CHILDREN o bid (.arr [.obj []]) (some a)).2 = [req] ∧
        ("after", JValue.str a) ∈ req.kwargs) ∧
    (∀ (o : Oracle) (comment : List (String × JValue)) (d : String), d.isEmpty = false →
      ∃ req : Request,
        (NOTION_CREATE_COMMENT o comment (some d) none).2 = [req] ∧
        ("discussion_id", JValue.str d) ∈ req.kwargs) ∧
    (∀ (o : Oracle) (pbid cid : String), pbid.isEmpty = false → cid.isEmpty = false →
      (NOTION_GET_COMMENT_BY_ID o pbid cid).2 =
        [⟨.commentsList, [("block_id", .str pbid), ("page_size", .num 100)]⟩]) ∧
    (∀ (o : Oracle) (bid : String) (ps : Option Int) (sc : Option String),
      bid.isEmpty = false →
      ∃ kw, (NOTION_FETCH_COMMENTS o bid ps sc).2 =
        [⟨.commentsList, ("block_id", JValue.str bid) :: kw⟩]) := by
  have hAfter1 : ∀ (o : Oracle) (pid a : String), validate_notion_id (.str pid) = true →
      ∃ req : Request,
        (NOTION_ADD_MULTIPLE_PAGE_CONTENT o pid (.arr [.obj [("content", .str "x")]])
          (some a)).2 = [req] ∧
        ("after", JValue.str a) ∈ req.kwargs := by
    intro o pid a hp
    refine ⟨⟨.blocksChildrenAppend, [("block_id", .str pid),
      ("children", .arr [.obj [("object", .str "block"), ("type", .str "paragraph"),
        ("paragraph", .obj [("rich_text", .arr (markdown_to_rich_text (.str "x")))])]]),
      ("after", .str a)]⟩, ?_, by simp⟩
    simp only [NOTION_ADD_MULTIPLE_PAGE_CONTENT]
    rw [if_neg (by simp [hp])]
    rfl
  have hAfter2 : ∀ (o : Oracle) (pid a : String), validate_notion_id (.str pid) = true →
      ∃ req : Request,
        (NOTION_ADD_PAGE_CONTENT o pid (.obj []) (some a)).2 = [req] ∧
        ("after", JValue.str a) ∈ req.kwargs := by
    intro o pid a hp
    refine ⟨⟨.blocksChildrenAppend, [("block_id", .str pid),
      ("children", .arr [.obj []]), ("after", .str a)]⟩, ?_, by simp⟩
    simp only [NOTION_ADD_PAGE_CONTENT]
    rw [if_neg (by simp [hp])]
    rfl
  have hAfter3 : ∀ (o : Oracle) (bid a : String), validate_notion_id (.str bid) = true →
      ∃ req : Request,
        (NOTION_APPEND_BLOCK_CHILDREN o bid (.arr [.obj []]) (some a)).2 = [req] ∧
        ("after", JValue.str a) ∈ req.kwargs := by
    intro o bid a hp
    refine ⟨⟨.blocksChildrenAppend, [("block_id", .str bid),
      ("children", .arr [.obj []]), ("after", .str a)]⟩, ?_, by simp⟩
    simp only [NOTION_APPEND_BLOCK_CHILDREN]
    rw [if_neg (by simp [hp])]
    rfl
  have hCmt1 : ∀ (o : Oracle) (comment : List (String × JValue)) (d : String),
      d.isEmpty = false →
      ∃ req : Request,
        (NOTION_CREATE_COMMENT o comment (some d) none).2 = [req] ∧
        ("discussion_id", JValue.str d) ∈ req.kwargs := by
    intro o comment d hd
    refine ⟨⟨.commentsCreate,
      [("rich_text", .arr [typedTextRun ((comment.lookup "content").getD (.str ""))]),
       ("discussion_id", .str d)]⟩, ?_, by simp⟩
    simp only [NOTION_CREATE_COMMENT, strOptTruthy, hd]
    rfl
  have hCmt2 : ∀ (o : Oracle) (pbid cid : String),
      pbid.isEmpty = false → cid.isEmpty = false →
      (NOTION_GET_COMMENT_BY_ID o pbid cid).2 =
        [⟨.commentsList, [("block_id", .str pbid), ("page_size", .num 100)]⟩] := by
    intro o pbid cid hp hc
    simp only [NOTION_GET_COMMENT_BY_ID, hp, hc]
    rw [if_neg (by simp)]
    split
    · rfl
    · split <;> rfl
  have hCmt3 : ∀ (o : Oracle) (bid : String) (ps : Option Int) (sc : Option String),
      bid.isEmpty = false →
      ∃ kw, (NOTION_FETCH_COMMENTS o bid ps sc).2 =
        [⟨.commentsList, ("block_id", JValue.str bid) :: kw⟩] := by
    intro o bid ps sc hb
    rcases ps with _ | n <;> rcases sc with _ | c
    · refine ⟨[("page_size", JValue.null)], ?_⟩
      simp only [NOTION_FETCH_COMMENTS, hb]
      rw [if_neg (by simp)]
      rfl
    · refine ⟨[("page_size", JValue.null), ("start_cursor", JValue.str c)], ?_⟩
      simp only [NOTION_FETCH_COMMENTS, hb]
      rw [if_neg (by simp)]
      rfl
    · refine ⟨[("page_size", JValue.num n)], ?_⟩
      simp only [NOTION_FETCH_COMMENTS, hb]
      rw [if_neg (by simp)]
      rfl
    · refine ⟨[("page_size", JValue.num n), ("start_cursor", JValue.str c)], ?_⟩
      simp only [NOTION_FETCH_COMMENTS, hb]
      rw [if_neg (by simp)]
      rfl
  refine ⟨?_, ?_, ?_, ?_, ?_, ?_, ?_, ?_, ?_, ?_, ?_, ?_, ?_, ?_, ?_, ?_, ?_, ?_, ?_,
    hAfter1, hAfter2, hAfter3, hCmt1, hCmt2, hCmt3⟩ <;>
    intros <;>
    simp_all [NOTION_GET_ABOUT_USER, NOTION_CREATE_NOTION_PAGE, NOTION_UPDATE_PAGE,
      NOTION_GET_PAGE_PROPERTY_ACTION, NOTION_ARCHIVE_NOTION_PAGE, NOTION_CREATE_DATABASE,
      NOTION_INSERT_ROW_DATABASE, NOTION_QUERY_DATABASE, NOTION_FETCH_DATABASE,
      NOTION_FETCH_ROW, NOTION_UPDATE_ROW_DATABASE, NOTION_UPDATE_SCHEMA_DATABASE,
      NOTION_ADD_MULTIPLE_PAGE_CONTENT, NOTION_ADD_PAGE_CONTENT, NOTION_APPEND_BLOCK_CHILDREN,
      NOTION_UPDATE_BLOCK, NOTION_DELETE_BLOCK, NOTION_FETCH_BLOCK_CONTENTS,
      NOTION_FETCH_BLOCK_METADATA]

/-- Witness for C1 (amended): validating operations at the malformed
identifier `"zz"` reject with zero calls, while the unvalidated `after`
parameter carrying the same malformed identifier is forwarded in a
collaborator call. -/
theorem C1_invalid_id_rejected_amended_witness :
    NOTION_GET_ABOUT_USER okOracle "zz" = (invalidEnv "Invalid user ID format", []) ∧
    NOTION_FETCH_ROW okOracle "zz" = (invalidEnv "Invalid page_id format", []) ∧
    NOTION_QUERY_DATABASE okOracle "zz" 10 none none =
      .ok (invalidEnv "Invalid database_id format", []) ∧
    NOTION_DELETE_BLOCK okOracle "zz" = (invalidEnv "Invalid block_id", []) ∧
    validate_notion_id (.str "zz") = false ∧
    (∃ req : Request,
      (NOTION_ADD_MULTIPLE_PAGE_CONTENT okOracle zeroId
        (.arr [.obj [("content", .str "x")]]) (some "zz")).2 = [req] ∧
      ("after", JValue.str "zz") ∈ req.kwargs) := by
  obtain ⟨h1, -, -, -, -, -, -, h8, -, h10, -, -, -, -, -, -, h17, -, -, h20, -⟩ :=
    C1_invalid_id_rejected_amended
  exact ⟨h1 okOracle "zz" (by decide), h10 okOracle "zz" (by decide),
         h8 okOracle "zz" 10 none none (by decide), h17 okOracle "zz" (by decide),
         by decide, h20 okOracle zeroId "zz" (by decide)⟩

/-- Witness for C6 (amended): the all-hex 32-character identifier is
accepted via the amended characterization. -/
theorem C6_amended_validator_witness :
    validate_notion_id (.str zeroId) = true :=
  (C6_amended_validator (.str zeroId)).mpr ⟨zeroId, rfl, Or.inl (by decide)⟩
